import Mathlib

/-!
# CHT832X temperature / humidity sensor driver

A shallow embedding of `src/CHT832X.cpp` (library version 0.1.1).

* The driver object becomes the record `CHT832X`; every member function becomes a
  function that takes the record and returns the updated record together with the
  C++ return value.
* `float` / `double` values are exact rationals (`ℚ`).
* Machine integers are `Nat` / `Int` with explicit wrap-around (`uint8_t` is `% 256`,
  `uint16_t` is `% 65536`, `uint32_t` is `% 4294967296`, `int16_t` is `toInt16`).
* The external collaborators (the `TwoWire` transport, `millis()` and `delay()`) are
  modelled by an environment `Env` that fixes what they answer during one call, and
  by a trace of the calls the driver issued to them.
-/

/-- Modelled from the spec: the error codes of `CHT832X.h`, which is not part of the
sources. The spec lists them as an enumerated type: OK, AddressError, ConnectError,
TooSoonError, BusError and CrcError. -/
inductive ErrorCode where
  | CHT832X_OK
  | CHT832X_ERROR_ADDR
  | CHT832X_ERROR_I2C
  | CHT832X_ERROR_CONNECT
  | CHT832X_ERROR_LASTREAD
  | CHT832X_ERROR_CRC
  deriving DecidableEq, Repr

/-- One call issued by the driver to an external collaborator: the five `TwoWire`
member functions the driver uses, and the blocking `delay`. -/
inductive Call where
  | beginTransmission (address : Nat)
  | write (data : Nat)
  | endTransmission
  | requestFrom (address : Nat) (quantity : Nat)
  | read
  | delay (ms : Nat)
  deriving DecidableEq, Repr

/-- What the external collaborators answer during one call of a public operation.
Every public operation calls `endTransmission` and `requestFrom` at most once. -/
structure Env where
  /-- value returned by the k-th call of `millis()` (k = 0, 1, ...) -/
  millis : Nat → Nat
  /-- status returned by `_wire->endTransmission()`; 0 is success -/
  endTransmission : Nat
  /-- number of bytes reported by `_wire->requestFrom()` -/
  requestFrom : Nat
  /-- value returned by the i-th call of `_wire->read()` (i = 0, 1, ...) -/
  read : Nat → Nat

/-- The private members of `class CHT832X`, plus the trace of calls issued so far
to the transport and to `delay` (oldest first). -/
structure CHT832X where
  _address : Nat
  _lastRead : Nat
  _tempOffset : ℚ
  _humOffset : ℚ
  _temperature : ℚ
  _humidity : ℚ
  _error : ErrorCode
  trace : List Call
  deriving DecidableEq

namespace CHT832X

open ErrorCode

/-! ## Constants (lines 13-28) -/

def CHT832X_CMD_READ : Nat := 0xE000
def CHT832X_CMD_ENABLE_HEATER : Nat := 0x306D
def CHT832X_CMD_DISABLE_HEATER : Nat := 0x3066
def CHT832X_CMD_CONFIG_HEATER : Nat := 0x306E
def CHT832X_CMD_READ_STATUS : Nat := 0xF32D
def CHT832X_CMD_CLEAR_STATUS : Nat := 0x3041
def CHT832X_CMD_SOFTWARE_RESET : Nat := 0x30A2
def CHT832X_CMD_READ_NIST_BASE : Nat := 0x3683
def CHT832X_CMD_READ_MANUFACTURER : Nat := 0x3781
def CHT832X_READ_DELAY : Nat := 60

/-- Modelled from the spec: the default value of the parameter `del` of
`_readRegister`, declared in `CHT832X.h` (not part of the sources). The spec says the
register reads that omit it need no conversion delay. -/
def defaultDel : Nat := 0

/-! ## Machine arithmetic -/

/-- Conversion of an integer value to `int16_t` (two's complement, modulo 2^16). -/
def toInt16 (n : Nat) : Int :=
  if n % 65536 < 32768 then (n % 65536 : Nat) else ((n % 65536 : Nat) : Int) - 65536

/-- Conversion of an `int16_t` value to `uint16_t` (modulo 2^16). -/
def toUInt16 (i : Int) : Nat := (i % 65536).toNat

/-- Subtraction of two `uint32_t` values, `a - b` modulo 2^32. -/
def sub32 (a b : Nat) : Nat :=
  (a % 4294967296 + 4294967296 - b % 4294967296) % 4294967296

/-! ## CRC (lines 353-376) -/

/-- The inner loop `for (uint8_t i = 8; i; i--)` of `_crc8`, on the `uint8_t`
accumulator `_crc`. -/
def _crc8.bits : Nat → Nat → Nat
  | 0, _crc => _crc
  | i + 1, _crc =>
    if _crc &&& (1 <<< 7) ≠ 0 then
      _crc8.bits i (((_crc <<< 1) % 256) ^^^ 0x31)
    else
      _crc8.bits i ((_crc <<< 1) % 256)

/-- The outer loop `while (n--)` of `_crc8`; the state is `(_crc, value)`. -/
def _crc8.loop (data : Nat) : Nat → Nat → Nat → Nat
  | 0, _crc, _ => _crc
  | n + 1, _crc, value => _crc8.loop data n (_crc8.bits 8 (_crc ^^^ value)) ((data &&& 0xFF) % 256)

/-- The function `uint8_t CHT832X::_crc8(uint16_t data)`. -/
def _crc8 (data : Nat) : Nat :=
  _crc8.loop data 2 0xFF ((data >>> 8) % 256)

/-! ## Register transport (lines 301-350) -/

/-- The loop `for (uint8_t i = 0; i < size; i++) buf[i] = _wire->read();`;
the first argument counts the iterations still to run. -/
def _readRegister.fill (e : Env) : Nat → Nat → List Nat → List Nat
  | 0, _, buf => buf
  | k + 1, i, buf => _readRegister.fill e k (i + 1) (buf.set i (e.read i % 256))

/-- The function `int CHT832X::_readRegister(command, buf, size, del)`. Returns the
driver, the buffer behind `buf` and the return value. -/
def _readRegister (s : CHT832X) (e : Env) (command : Nat) (buf : List Nat) (size : Nat)
    (del : Nat) : CHT832X × List Nat × ErrorCode :=
  let s1 := { s with trace := s.trace ++
    [Call.beginTransmission s._address, Call.write ((command >>> 8) % 256),
     Call.write (command &&& 0xFF), Call.endTransmission] }
  let n := e.endTransmission
  if n ≠ 0 then
    let s2 := { s1 with _error := CHT832X_ERROR_I2C }
    (s2, buf, s2._error)
  else
    let s2 := if del > 0 then { s1 with trace := s1.trace ++ [Call.delay del] } else s1
    let s3 := { s2 with trace := s2.trace ++ [Call.requestFrom s._address size] }
    let n := e.requestFrom
    if n ≠ size then
      let s4 := { s3 with _error := CHT832X_ERROR_I2C }
      (s4, buf, s4._error)
    else
      let s4 := { s3 with trace := s3.trace ++ List.replicate size Call.read }
      let buf1 := _readRegister.fill e size 0 buf
      let s5 := { s4 with _error := CHT832X_OK }
      (s5, buf1, s5._error)

/-- The function `int CHT832X::_writeRegister(command, buf, size)`. -/
def _writeRegister (s : CHT832X) (e : Env) (command : Nat) (buf : List Nat) (size : Nat) :
    CHT832X × ErrorCode :=
  let s1 := { s with trace := s.trace ++
    [Call.beginTransmission s._address, Call.write ((command >>> 8) % 256),
     Call.write (command &&& 0xFF)] ++
    (List.range size).map (fun i => Call.write (buf.getD i 0)) ++ [Call.endTransmission] }
  let n := e.endTransmission
  if n ≠ 0 then
    let s2 := { s1 with _error := CHT832X_ERROR_I2C }
    (s2, s2._error)
  else
    let s2 := { s1 with _error := CHT832X_OK }
    (s2, s2._error)

/-! ## Public operations -/

/-- The function `bool CHT832X::isConnected()` (lines 60-64). -/
def isConnected (s : CHT832X) (e : Env) : CHT832X × Bool :=
  let s1 := { s with trace := s.trace ++
    [Call.beginTransmission s._address, Call.endTransmission] }
  (s1, e.endTransmission == 0)

/-- The function `int CHT832X::begin()` (lines 42-57). -/
def begin (s : CHT832X) (e : Env) : CHT832X × ErrorCode :=
  if s._address < 0x44 ∨ s._address > 0x47 then
    let s1 := { s with _error := CHT832X_ERROR_ADDR }
    (s1, s1._error)
  else
    let r := isConnected s e
    if ! r.2 then
      let s1 := { r.1 with _error := CHT832X_ERROR_CONNECT }
      (s1, s1._error)
    else
      let s1 := { r.1 with _error := CHT832X_OK }
      (s1, s1._error)

/-- The function `uint8_t CHT832X::getAddress()`. -/
def getAddress (s : CHT832X) : Nat := s._address

/-- The function `int CHT832X::read()` (lines 77-128). -/
def read (s : CHT832X) (e : Env) : CHT832X × ErrorCode :=
  if sub32 (e.millis 0) s._lastRead < 1000 then
    let s1 := { s with _error := CHT832X_ERROR_LASTREAD }
    (s1, s1._error)
  else
    let s1 := { s with _lastRead := e.millis 1 % 4294967296 }
    let data : List Nat := [0, 0, 0, 0, 0, 0]
    let r := _readRegister s1 e CHT832X_CMD_READ data 6 CHT832X_READ_DELAY
    let s2 := r.1
    let data := r.2.1
    if s2._error ≠ CHT832X_OK then
      (s2, s2._error)
    else
      let s3 := { s2 with _error := CHT832X_OK }
      let tmp : Int := toInt16 ((data.getD 0 0 <<< 8) ||| data.getD 1 0)
      let s4 := { s3 with _temperature := -45 + (175 / 65535 : ℚ) * tmp }
      let s5 := if s4._tempOffset ≠ (0 : ℚ) then
          { s4 with _temperature := s4._temperature + s4._tempOffset } else s4
      let s6 := if _crc8 (toUInt16 tmp) ≠ data.getD 2 0 then
          { s5 with _error := CHT832X_ERROR_CRC } else s5
      let tmp : Int := toInt16 ((data.getD 3 0 <<< 8) ||| data.getD 4 0)
      let s7 := { s6 with _humidity := (100 / 65535 : ℚ) * tmp }
      let s8 := if s7._humOffset ≠ (0 : ℚ) then
          let t1 := { s7 with _humidity := s7._humidity + s7._humOffset }
          let t2 := if t1._humidity < (0 : ℚ) then { t1 with _humidity := 0 } else t1
          if t2._humidity > (100 : ℚ) then { t2 with _humidity := 100 } else t2
        else s7
      let s9 := if _crc8 (toUInt16 tmp) ≠ data.getD 5 0 then
          { s8 with _error := CHT832X_ERROR_CRC } else s8
      (s9, s9._error)

/-- The function `uint32_t CHT832X::lastRead()`. -/
def lastRead (s : CHT832X) : Nat := s._lastRead

/-- The function `float CHT832X::getHumidity()`. -/
def getHumidity (s : CHT832X) : ℚ := s._humidity

/-- The function `float CHT832X::getTemperature()`. -/
def getTemperature (s : CHT832X) : ℚ := s._temperature

/-- The function `void CHT832X::setHumidityOffset(float offset)`. -/
def setHumidityOffset (s : CHT832X) (offset : ℚ) : CHT832X := { s with _humOffset := offset }

/-- The function `void CHT832X::setTemperatureOffset(float offset)`. -/
def setTemperatureOffset (s : CHT832X) (offset : ℚ) : CHT832X := { s with _tempOffset := offset }

/-- The function `float CHT832X::getHumidityOffset()`. -/
def getHumidityOffset (s : CHT832X) : ℚ := s._humOffset

/-- The function `float CHT832X::getTemperatureOffset()`. -/
def getTemperatureOffset (s : CHT832X) : ℚ := s._tempOffset

/-- The function `void CHT832X::enableHeater()`. -/
def enableHeater (s : CHT832X) (e : Env) : CHT832X :=
  (_writeRegister s e CHT832X_CMD_ENABLE_HEATER [] 0).1

/-- The function `void CHT832X::enableHeaterFull()`. -/
def enableHeaterFull (s : CHT832X) (e : Env) : CHT832X :=
  let buffer : List Nat := [0x3F, 0xFF, 0x06]
  (_writeRegister s e CHT832X_CMD_CONFIG_HEATER buffer 3).1

/-- The function `void CHT832X::enableHeaterHalf()`. -/
def enableHeaterHalf (s : CHT832X) (e : Env) : CHT832X :=
  let buffer : List Nat := [0x03, 0xFF, 0x00]
  (_writeRegister s e CHT832X_CMD_CONFIG_HEATER buffer 3).1

/-- The function `void CHT832X::enableHeaterQuarter()`. -/
def enableHeaterQuarter (s : CHT832X) (e : Env) : CHT832X :=
  let buffer : List Nat := [0x00, 0x9F, 0x96]
  (_writeRegister s e CHT832X_CMD_CONFIG_HEATER buffer 3).1

/-- The function `void CHT832X::disableHeater()`. -/
def disableHeater (s : CHT832X) (e : Env) : CHT832X :=
  (_writeRegister s e CHT832X_CMD_DISABLE_HEATER [] 0).1

/-- The function `uint16_t CHT832X::getStatusRegister()` (lines 219-234). -/
def getStatusRegister (s : CHT832X) (e : Env) : CHT832X × Nat :=
  let buffer : List Nat := [0, 0, 0]
  let r := _readRegister s e CHT832X_CMD_READ_STATUS buffer 3 defaultDel
  let buffer := r.2.1
  let value := (buffer.getD 0 0 * 256 + buffer.getD 1 0) % 65536
  let s1 := { r.1 with _error := CHT832X_OK }
  let s2 := if _crc8 value ≠ buffer.getD 2 0 then
      { s1 with _error := CHT832X_ERROR_CRC } else s1
  (s2, value)

/-- The function `void CHT832X::clearStatusRegister()`. -/
def clearStatusRegister (s : CHT832X) (e : Env) : CHT832X :=
  (_writeRegister s e CHT832X_CMD_CLEAR_STATUS [] 0).1

/-- The function `void CHT832X::softwareReset()`. -/
def softwareReset (s : CHT832X) (e : Env) : CHT832X :=
  (_writeRegister s e CHT832X_CMD_SOFTWARE_RESET [] 0).1

/-- The function `uint16_t CHT832X::getNIST(uint8_t id)` (lines 257-271). -/
def getNIST (s : CHT832X) (e : Env) (id : Nat) : CHT832X × Nat :=
  if id > 2 then (s, 0)
  else
    let buffer : List Nat := [0, 0, 0]
    let r := _readRegister s e ((CHT832X_CMD_READ_NIST_BASE + id) % 65536) buffer 3 defaultDel
    let buffer := r.2.1
    let value := (buffer.getD 0 0 * 256 + buffer.getD 1 0) % 65536
    let s1 := { r.1 with _error := CHT832X_OK }
    let s2 := if _crc8 value ≠ buffer.getD 2 0 then
        { s1 with _error := CHT832X_ERROR_CRC } else s1
    (s2, value)

/-- The function `uint16_t CHT832X::getManufacturer()` (lines 273-286). -/
def getManufacturer (s : CHT832X) (e : Env) : CHT832X × Nat :=
  let buffer : List Nat := [0, 0, 0]
  let r := _readRegister s e CHT832X_CMD_READ_MANUFACTURER buffer 3 defaultDel
  let buffer := r.2.1
  let value := (buffer.getD 0 0 * 256 + buffer.getD 1 0) % 65536
  let s1 := { r.1 with _error := CHT832X_OK }
  let s2 := if _crc8 value ≠ buffer.getD 2 0 then
      { s1 with _error := CHT832X_ERROR_CRC } else s1
  (s2, value)

/-- The function `int CHT832X::getError()` (lines 289-294). -/
def getError (s : CHT832X) : CHT832X × ErrorCode :=
  let e := s._error
  ({ s with _error := CHT832X_OK }, e)

/-! ## The CRC as polynomial division over GF(2) -/

/-- Remainder of polynomial long division over GF(2). Polynomials are bit vectors
(bit i is the coefficient of x^i); `g` is the divisor, of degree `deg`. The first
argument is the number of quotient coefficients still to determine: at each step,
if the coefficient of x^(deg + k) of the dividend is 1, the shifted divisor `g * x^k`
is subtracted (XOR). With `k` steps this reduces any dividend of degree below
`deg + k`. -/
def gf2Mod (g deg : Nat) : Nat → Nat → Nat
  | 0, a => a
  | k + 1, a => gf2Mod g deg k (if a.testBit (deg + k) then a ^^^ (g <<< k) else a)

/-- The CRC-8 in the words of the claim: the remainder of `(d XOR 0xFF00) * x^8`
modulo the generator polynomial x^8 + x^5 + x^4 + 1 (bit vector 0x131), with no bit
reflection and no final XOR. For a 16-bit `d` the dividend has degree below 24, so
16 division steps are taken. -/
def crc8Spec (d : Nat) : Nat := gf2Mod 0x131 8 16 ((d ^^^ 0xFF00) <<< 8)

/-- Product of the polynomials `a` and `b` over GF(2) (carry-less multiplication),
taken over the coefficients of `a` below x^n. -/
def gf2Mul (a b : Nat) : Nat → Nat
  | 0 => 0
  | n + 1 => (if a.testBit n then b <<< n else 0) ^^^ gf2Mul a b n

/-- Quotient of the long division performed by `gf2Mod`. -/
def gf2Quot (g deg : Nat) : Nat → Nat → Nat
  | 0, _ => 0
  | k + 1, a =>
    if a.testBit (deg + k) then 2 ^ k ^^^ gf2Quot g deg k (a ^^^ (g <<< k))
    else gf2Quot g deg k a

/-! ## Counting corrupted bits -/

/-- The number of set bits among the low 8 bits of `m`. -/
def popcount8 (m : Nat) : Nat := ((List.range 8).filter (fun i => m.testBit i)).length

/-- The number of bit positions in which two bytes differ. -/
def bitDistance (a b : Nat) : Nat := popcount8 (a ^^^ b)

/-- The same count as `popcount8`, as a sum of the eight bits. -/
def pc8 (m : Nat) : Nat :=
  (m &&& 1) + ((m >>> 1) &&& 1) + ((m >>> 2) &&& 1) + ((m >>> 3) &&& 1) +
  ((m >>> 4) &&& 1) + ((m >>> 5) &&& 1) + ((m >>> 6) &&& 1) + ((m >>> 7) &&& 1)

/-- The bytes with exactly `w` set bits, for `w` up to 3 (the error patterns one
byte can carry when at most three bits are corrupted). -/
def lowWeight : Nat → List Nat
  | 0 => [0]
  | 1 => [1, 2, 4, 8, 16, 32, 64, 128]
  | 2 => [3, 5, 6, 9, 10, 12, 17, 18, 20, 24, 33, 34, 36, 40, 48, 65, 66, 68, 72, 80, 96, 129,
      130, 132, 136, 144, 160, 192]
  | 3 => [7, 11, 13, 14, 19, 21, 22, 25, 26, 28, 35, 37, 38, 41, 42, 44, 49, 50, 52, 56, 67, 69,
      70, 73, 74, 76, 81, 82, 84, 88, 97, 98, 100, 104, 112, 131, 133, 134, 137, 138, 140,
      145, 146, 148, 152, 161, 162, 164, 168, 176, 193, 194, 196, 200, 208, 224]
  | _ => []

/-! ## Reading the trace -/

/-- The bytes passed to `_wire->write()` in a stretch of the trace, in order. -/
def written : List Call → List Nat
  | [] => []
  | Call.write b :: cs => b :: written cs
  | _ :: cs => written cs

/-! ## Concrete inputs used by the examples below -/

/-- A freshly constructed driver at address 0x44 with all members zero. -/
def s0 : CHT832X :=
  { _address := 0x44, _lastRead := 0, _tempOffset := 0, _humOffset := 0,
    _temperature := 0, _humidity := 0, _error := CHT832X_OK, trace := [] }

/-- An environment in which the clock reads `now`, the transport acknowledges the
command, reports `count` bytes and delivers the bytes of `payload` in order. -/
def envOf (now : Nat) (status : Nat) (count : Nat) (payload : List Nat) : Env :=
  { millis := fun _ => now, endTransmission := status, requestFrom := count,
    read := fun i => payload.getD i 0 }

/-- A payload with valid CRC bytes: temperature code 0x6666, humidity code 0x8000. -/
def envGood : Env := envOf 1000 0 6 [0x66, 0x66, 0x93, 0x80, 0x00, 0xA2]

/-- A driver holding an earlier measurement (21 degrees, 40 percent). -/
def sMeasured : CHT832X := { s0 with _temperature := 21, _humidity := 40 }

/-- An environment in which the command write is not acknowledged (status 2). -/
def envNack : Env := envOf 1000 2 0 []

/-- An environment in which the command is acknowledged but only 2 bytes arrive. -/
def envShort : Env := envOf 1000 0 2 [0x12, 0x34]

/-- A payload whose temperature CRC byte is corrupted and whose humidity CRC byte
is valid: temperature code 0x6666, humidity code 0x6666. -/
def envBadCrc : Env := envOf 1000 0 6 [0x66, 0x66, 0x00, 0x66, 0x66, 0x93]

/-- A payload with valid CRC bytes: temperature code 0x0000, humidity code 0x6666. -/
def envHum : Env := envOf 1000 0 6 [0x00, 0x00, 0x81, 0x66, 0x66, 0x93]

/-- A driver whose sticky error holds an earlier CRC error. -/
def sErr : CHT832X := { s0 with _error := CHT832X_ERROR_CRC }

/-- A 3-byte register response with a valid CRC byte: value 0x1234. -/
def envReg : Env := envOf 1000 0 3 [0x12, 0x34, 0x37]

/-- A 3-byte register response with a corrupted CRC byte: value 0x1234. -/
def envRegBad : Env := envOf 1000 0 3 [0x12, 0x34, 0x00]

/-- The payload of `envGood` with the clock at 999 ms. -/
def envEarly : Env := envOf 999 0 6 [0x66, 0x66, 0x93, 0x80, 0x00, 0xA2]

/-- The payload of `envGood` with the clock at 1500 ms. -/
def envLater : Env := envOf 1500 0 6 [0x66, 0x66, 0x93, 0x80, 0x00, 0xA2]

end CHT832X

namespace CHT832X

open ErrorCode

/-! ## Machine arithmetic lemmas -/

theorem shl8_lor (hi lo : Nat) (hlo : lo < 256) : (hi <<< 8) ||| lo = hi * 256 + lo := by
  have h := Nat.mul_add_lt_is_or (show lo < 2 ^ 8 by simpa using hlo) hi
  rw [Nat.shiftLeft_eq, Nat.mul_comm hi, ← h]

theorem toUInt16_toInt16 (n : Nat) : toUInt16 (toInt16 n) = n % 65536 := by
  unfold toUInt16 toInt16
  split <;> omega

theorem toInt16_range (n : Nat) : -32768 ≤ toInt16 n ∧ toInt16 n ≤ 32767 := by
  unfold toInt16
  split <;> omega

/-- The 16-bit word the driver builds from two received bytes is the big-endian
value of the pair, and is below 2^16. -/
theorem word_eq (e : Env) (i j : Nat) :
    ((e.read i % 256) <<< 8) ||| (e.read j % 256) = e.read i % 256 * 256 + e.read j % 256 :=
  shl8_lor _ _ (Nat.mod_lt _ (by decide))

theorem crc_word (e : Env) (i j : Nat) :
    _crc8 (toUInt16 (toInt16 (((e.read i % 256) <<< 8) ||| (e.read j % 256)))) =
      _crc8 (e.read i % 256 * 256 + e.read j % 256) := by
  rw [toUInt16_toInt16, word_eq]
  congr 1
  apply Nat.mod_eq_of_lt
  have h1 : e.read i % 256 < 256 := Nat.mod_lt _ (by decide)
  have h2 : e.read j % 256 < 256 := Nat.mod_lt _ (by decide)
  omega

/-! ## The register transport -/

theorem fill6 (e : Env) :
    _readRegister.fill e 6 0 [0, 0, 0, 0, 0, 0] =
      [e.read 0 % 256, e.read 1 % 256, e.read 2 % 256, e.read 3 % 256, e.read 4 % 256,
        e.read 5 % 256] := by
  simp [_readRegister.fill]

theorem fill3 (e : Env) :
    _readRegister.fill e 3 0 [0, 0, 0] = [e.read 0 % 256, e.read 1 % 256, e.read 2 % 256] := by
  simp [_readRegister.fill]

/-- A failed transaction: the buffer is returned untouched, the sticky error is the
bus error, and no other member changes. -/
theorem readRegister_fail (s : CHT832X) (e : Env) (command : Nat) (buf : List Nat)
    (size del : Nat) (h : e.endTransmission ≠ 0 ∨ e.requestFrom ≠ size) :
    (_readRegister s e command buf size del).2.1 = buf ∧
    (_readRegister s e command buf size del).1._error = CHT832X_ERROR_I2C ∧
    (_readRegister s e command buf size del).2.2 = CHT832X_ERROR_I2C ∧
    (_readRegister s e command buf size del).1._temperature = s._temperature ∧
    (_readRegister s e command buf size del).1._humidity = s._humidity ∧
    (_readRegister s e command buf size del).1._lastRead = s._lastRead ∧
    (_readRegister s e command buf size del).1._tempOffset = s._tempOffset ∧
    (_readRegister s e command buf size del).1._humOffset = s._humOffset ∧
    (_readRegister s e command buf size del).1._address = s._address := by
  unfold _readRegister
  by_cases h1 : e.endTransmission = 0
  · have h2 : e.requestFrom ≠ size := by
      rcases h with h | h
      · exact absurd h1 h
      · exact h
    simp only [h1, h2, ne_eq, not_true_eq_false, not_false_eq_true, if_true, if_false]
    split <;> simp
  · simp [h1]

/-- A successful transaction: the buffer holds the received bytes, the sticky error
is OK, and no other member changes. -/
theorem readRegister_ok (s : CHT832X) (e : Env) (command : Nat) (buf : List Nat)
    (size del : Nat) (h1 : e.endTransmission = 0) (h2 : e.requestFrom = size) :
    (_readRegister s e command buf size del).2.1 = _readRegister.fill e size 0 buf ∧
    (_readRegister s e command buf size del).1._error = CHT832X_OK ∧
    (_readRegister s e command buf size del).2.2 = CHT832X_OK ∧
    (_readRegister s e command buf size del).1._temperature = s._temperature ∧
    (_readRegister s e command buf size del).1._humidity = s._humidity ∧
    (_readRegister s e command buf size del).1._lastRead = s._lastRead ∧
    (_readRegister s e command buf size del).1._tempOffset = s._tempOffset ∧
    (_readRegister s e command buf size del).1._humOffset = s._humOffset ∧
    (_readRegister s e command buf size del).1._address = s._address := by
  unfold _readRegister
  simp only [h1, h2, ne_eq, not_true_eq_false, if_false]
  split <;> simp


/-! ## The measurement read -/

/-- The complete result of a `read()` that passes the rate limit and whose bus
transaction succeeds, in closed form. -/
theorem read_ok (s : CHT832X) (e : Env)
    (hrate : ¬ sub32 (e.millis 0) s._lastRead < 1000)
    (h1 : e.endTransmission = 0) (h2 : e.requestFrom = 6) :
    read s e =
      ({ _address := s._address,
         _lastRead := e.millis 1 % 4294967296,
         _tempOffset := s._tempOffset,
         _humOffset := s._humOffset,
         _temperature :=
           if s._tempOffset = 0 then
             -45 + (175 / 65535 : ℚ) * toInt16 (e.read 0 % 256 * 256 + e.read 1 % 256)
           else
             -45 + (175 / 65535 : ℚ) * toInt16 (e.read 0 % 256 * 256 + e.read 1 % 256)
               + s._tempOffset,
         _humidity :=
           if s._humOffset = 0 then
             (100 / 65535 : ℚ) * toInt16 (e.read 3 % 256 * 256 + e.read 4 % 256)
           else if (100 / 65535 : ℚ) * toInt16 (e.read 3 % 256 * 256 + e.read 4 % 256)
               + s._humOffset < 0 then 0
           else if (100 / 65535 : ℚ) * toInt16 (e.read 3 % 256 * 256 + e.read 4 % 256)
               + s._humOffset > 100 then 100
           else (100 / 65535 : ℚ) * toInt16 (e.read 3 % 256 * 256 + e.read 4 % 256)
               + s._humOffset,
         _error :=
           if _crc8 (e.read 0 % 256 * 256 + e.read 1 % 256) = e.read 2 % 256 ∧
              _crc8 (e.read 3 % 256 * 256 + e.read 4 % 256) = e.read 5 % 256
           then CHT832X_OK else CHT832X_ERROR_CRC,
         trace := s.trace ++
           [Call.beginTransmission s._address, Call.write 0xE0, Call.write 0x00,
            Call.endTransmission, Call.delay 60, Call.requestFrom s._address 6,
            Call.read, Call.read, Call.read, Call.read, Call.read, Call.read] },
       if _crc8 (e.read 0 % 256 * 256 + e.read 1 % 256) = e.read 2 % 256 ∧
          _crc8 (e.read 3 % 256 * 256 + e.read 4 % 256) = e.read 5 % 256
       then CHT832X_OK else CHT832X_ERROR_CRC) := by
  have hc01 := crc_word e 0 1
  have hc34 := crc_word e 3 4
  rw [word_eq] at hc01 hc34
  have hand : (57344 &&& 255 : Nat) = 0 := by decide
  have h100 : ¬ ((100 : ℚ) < 0) := by norm_num
  have hreg : _readRegister { s with _lastRead := e.millis 1 % 4294967296 } e CHT832X_CMD_READ
      [0, 0, 0, 0, 0, 0] 6 CHT832X_READ_DELAY =
      ({ _address := s._address, _lastRead := e.millis 1 % 4294967296,
         _tempOffset := s._tempOffset, _humOffset := s._humOffset,
         _temperature := s._temperature, _humidity := s._humidity, _error := CHT832X_OK,
         trace := s.trace ++
           [Call.beginTransmission s._address, Call.write 0xE0, Call.write 0x00,
            Call.endTransmission, Call.delay 60, Call.requestFrom s._address 6,
            Call.read, Call.read, Call.read, Call.read, Call.read, Call.read] },
       [e.read 0 % 256, e.read 1 % 256, e.read 2 % 256, e.read 3 % 256, e.read 4 % 256,
        e.read 5 % 256], CHT832X_OK) := by
    simp [_readRegister, h1, h2, CHT832X_READ_DELAY, CHT832X_CMD_READ, fill6, hand]
  unfold read
  rw [if_neg hrate]
  simp only [hreg, ne_eq, not_true_eq_false, if_false, List.getD_cons_zero, List.getD_cons_succ,
    word_eq, hc01, hc34]
  by_cases ht : s._tempOffset = 0 <;>
  by_cases hc1 : _crc8 (e.read 0 % 256 * 256 + e.read 1 % 256) = e.read 2 % 256 <;>
  by_cases hc2 : _crc8 (e.read 3 % 256 * 256 + e.read 4 % 256) = e.read 5 % 256 <;>
  by_cases hh : s._humOffset = 0 <;>
  by_cases hlt : (100 / 65535 : ℚ) * toInt16 (e.read 3 % 256 * 256 + e.read 4 % 256)
      + s._humOffset < 0 <;>
  by_cases hgt : (100 : ℚ) < (100 / 65535 : ℚ) * toInt16 (e.read 3 % 256 * 256 + e.read 4 % 256)
      + s._humOffset <;>
  simp [h100, ht, hc1, hh, hc2, hlt, hgt]

/-- A `read()` stopped by the rate limit changes the sticky error and nothing else. -/
theorem read_too_soon (s : CHT832X) (e : Env) (h : sub32 (e.millis 0) s._lastRead < 1000) :
    read s e = ({ s with _error := CHT832X_ERROR_LASTREAD }, CHT832X_ERROR_LASTREAD) := by
  unfold read
  rw [if_pos h]

/-- A `read()` whose bus transaction fails returns right after `_readRegister`. -/
theorem read_fail (s : CHT832X) (e : Env)
    (hrate : ¬ sub32 (e.millis 0) s._lastRead < 1000)
    (hfail : e.endTransmission ≠ 0 ∨ e.requestFrom ≠ 6) :
    (read s e).2 = CHT832X_ERROR_I2C ∧
    (read s e).1._error = CHT832X_ERROR_I2C ∧
    (read s e).1._temperature = s._temperature ∧
    (read s e).1._humidity = s._humidity ∧
    (read s e).1._lastRead = e.millis 1 % 4294967296 := by
  obtain ⟨-, herr, -, htemp, hhum, hlast, -, -, -⟩ :=
    readRegister_fail { s with _lastRead := e.millis 1 % 4294967296 } e CHT832X_CMD_READ
      [0, 0, 0, 0, 0, 0] 6 CHT832X_READ_DELAY hfail
  have hne : (_readRegister { s with _lastRead := e.millis 1 % 4294967296 } e CHT832X_CMD_READ
      [0, 0, 0, 0, 0, 0] 6 CHT832X_READ_DELAY).1._error ≠ CHT832X_OK := by
    rw [herr]; decide
  unfold read
  rw [if_neg hrate]
  simp only [if_pos hne]
  exact ⟨herr, herr, htemp, hhum, hlast⟩

/-! ## The CRC accumulator stays within one byte -/

theorem crc8_bits_lt : ∀ (i c : Nat), c < 256 → _crc8.bits i c < 256 := by
  intro i
  induction i with
  | zero => intro c hc; simpa [_crc8.bits] using hc
  | succ k ih =>
    intro c _
    unfold _crc8.bits
    split
    · apply ih
      have h1 : (c <<< 1) % 256 < 2 ^ 8 := Nat.mod_lt _ (by decide)
      have h2 : (0x31 : Nat) < 2 ^ 8 := by decide
      exact Nat.xor_lt_two_pow h1 h2
    · exact ih _ (Nat.mod_lt _ (by decide))

theorem crc8_lt (data : Nat) : _crc8 data < 256 := by
  have hx : ∀ a b : Nat, a < 256 → b < 256 → a ^^^ b < 256 := fun a b ha hb =>
    Nat.xor_lt_two_pow (n := 8) ha hb
  simp only [_crc8, _crc8.loop]
  apply crc8_bits_lt
  apply hx
  · apply crc8_bits_lt
    exact hx _ _ (by decide) (Nat.mod_lt _ (by decide))
  · exact Nat.mod_lt _ (by decide)

/-! ## Register reads after a failed transaction -/

/-- After a failed transaction the three register reads go on to decode the zero
buffer: the value is 0 and the CRC test replaces the bus error by the CRC error. -/
theorem register_read_after_failure (s : CHT832X) (e : Env)
    (hfail : e.endTransmission ≠ 0 ∨ e.requestFrom ≠ 3) :
    getStatusRegister s e =
      ({ (_readRegister s e CHT832X_CMD_READ_STATUS [0, 0, 0] 3 defaultDel).1 with
          _error := CHT832X_ERROR_CRC }, 0) ∧
    (∀ id : Nat, id ≤ 2 → getNIST s e id =
      ({ (_readRegister s e ((CHT832X_CMD_READ_NIST_BASE + id) % 65536) [0, 0, 0] 3
            defaultDel).1 with _error := CHT832X_ERROR_CRC }, 0)) ∧
    getManufacturer s e =
      ({ (_readRegister s e CHT832X_CMD_READ_MANUFACTURER [0, 0, 0] 3 defaultDel).1 with
          _error := CHT832X_ERROR_CRC }, 0) := by
  have hcrc : _crc8 0 ≠ 0 := by decide
  refine ⟨?_, ?_, ?_⟩
  · have hb := (readRegister_fail s e CHT832X_CMD_READ_STATUS [0, 0, 0] 3 defaultDel hfail).1
    simp [getStatusRegister, hb, hcrc]
  · intro id hid
    have hb := (readRegister_fail s e ((CHT832X_CMD_READ_NIST_BASE + id) % 65536) [0, 0, 0] 3
      defaultDel hfail).1
    have hid2 : ¬ id > 2 := by omega
    simp [getNIST, hid2, hb, hcrc]
  · have hb := (readRegister_fail s e CHT832X_CMD_READ_MANUFACTURER [0, 0, 0] 3 defaultDel
      hfail).1
    simp [getManufacturer, hb, hcrc]

/-! ## Claims -/

/-- C1: with `humidityOffset = 0`, a successful `read()` whose payload carries the
raw humidity code h = 0x8000 in bytes 3-4 (all CRC bytes valid) returns OK and leaves
`humidity = (100/65535) * (-32768)`: the code is reinterpreted as a signed 16-bit
value, so the stored humidity is not `(100/65535) * 32768`, the value the claim
requires for the unsigned code. -/
theorem read_humidity_code_0x8000 :
    (read s0 envGood).2 = CHT832X_OK ∧
    envGood.read 3 % 256 * 256 + envGood.read 4 % 256 = 32768 ∧
    (read s0 envGood).1._humidity = (100 / 65535 : ℚ) * (-32768) ∧
    (read s0 envGood).1._humidity ≠ (100 / 65535 : ℚ) * 32768 := by
  have h := read_ok s0 envGood (by decide) (by decide) (by decide)
  have hw : envGood.read 3 % 256 * 256 + envGood.read 4 % 256 = 32768 := by decide
  have hc : _crc8 (envGood.read 0 % 256 * 256 + envGood.read 1 % 256) = envGood.read 2 % 256 ∧
      _crc8 (envGood.read 3 % 256 * 256 + envGood.read 4 % 256) = envGood.read 5 % 256 := by
    decide
  have hi : toInt16 32768 = -32768 := by decide
  rw [h]
  simp only [if_pos hc]
  simp only [hw, hi]
  refine ⟨trivial, trivial, ?_, ?_⟩
  · simp [s0]
  · simp [s0]
    norm_num

/-- C2: for every raw temperature code `t` in [-32768, 32767] delivered big-endian
in bytes 0-1 (two's complement), a `read()` that passes the rate limit and whose bus
transaction succeeds leaves `temperature = -45 + (175/65535) * t` when
`temperatureOffset` is 0, and that value plus `temperatureOffset` otherwise. -/
theorem read_temperature_formula (s : CHT832X) (e : Env) (t : Int)
    (ht : -32768 ≤ t ∧ t ≤ 32767)
    (hrate : ¬ sub32 (e.millis 0) s._lastRead < 1000)
    (h1 : e.endTransmission = 0) (h2 : e.requestFrom = 6)
    (hb0 : e.read 0 % 256 = toUInt16 t / 256) (hb1 : e.read 1 % 256 = toUInt16 t % 256) :
    (s._tempOffset = 0 → (read s e).1._temperature = -45 + (175 / 65535 : ℚ) * t) ∧
    (s._tempOffset ≠ 0 →
      (read s e).1._temperature = -45 + (175 / 65535 : ℚ) * t + s._tempOffset) := by
  have hword : toInt16 (e.read 0 % 256 * 256 + e.read 1 % 256) = t := by
    rw [hb0, hb1, Nat.div_add_mod']
    unfold toInt16 toUInt16
    split <;> omega
  rw [read_ok s e hrate h1 h2, hword]
  constructor
  · intro h0
    simp [h0]
  · intro h0
    simp [h0]

/-- Witness for C2: temperature code 0x6666 = 26214 with offset 0. -/
theorem read_temperature_formula_witness :
    (read s0 envGood).1._temperature = -45 + (175 / 65535 : ℚ) * (26214 : Int) :=
  (read_temperature_formula s0 envGood 26214 (by decide) (by decide) (by decide) (by decide)
    (by decide) (by decide)).1 rfl

/-- The clamp of lines 116-119 on the value the code itself forms: for every payload
and every nonzero `humidityOffset`, after a `read()` that passes the rate limit and
whose bus transaction succeeds the stored humidity lies in [0, 100]; writing `v` for
the humidity of line 113 (bytes 3-4 through the signed temporary) plus the offset, it
is 0 when `v < 0`, 100 when `v > 100`, and `v` otherwise. -/
theorem read_humidity_clamped (s : CHT832X) (e : Env) (v : ℚ)
    (hrate : ¬ sub32 (e.millis 0) s._lastRead < 1000)
    (h1 : e.endTransmission = 0) (h2 : e.requestFrom = 6)
    (hoff : s._humOffset ≠ 0)
    (hv : v = (100 / 65535 : ℚ) * toInt16 (e.read 3 % 256 * 256 + e.read 4 % 256)
      + s._humOffset) :
    0 ≤ (read s e).1._humidity ∧ (read s e).1._humidity ≤ 100 ∧
    (v < 0 → (read s e).1._humidity = 0) ∧
    (100 < v → (read s e).1._humidity = 100) ∧
    (0 ≤ v → v ≤ 100 → (read s e).1._humidity = v) := by
  rw [read_ok s e hrate h1 h2]
  simp only [if_neg hoff, ← hv]
  by_cases hlt : v < 0
  · simp only [if_pos hlt]
    refine ⟨?_, ?_, ?_, ?_, ?_⟩ <;> intros <;> first | trivial | linarith
  · by_cases hgt : v > 100
    · simp only [if_neg hlt, if_pos hgt]
      refine ⟨?_, ?_, ?_, ?_, ?_⟩ <;> intros <;> first | trivial | linarith
    · simp only [if_neg hlt, if_neg hgt]
      refine ⟨?_, ?_, ?_, ?_, ?_⟩ <;> intros <;> first | trivial | linarith

/-- The clamp at work: humidity code 0x6666 decodes to 40; with offset 70 the sum is
110 and the stored humidity is 100. -/
theorem read_humidity_clamped_witness :
    (read (setHumidityOffset s0 70) envHum).1._humidity = 100 :=
  (read_humidity_clamped (setHumidityOffset s0 70) envHum
    ((100 / 65535 : ℚ) * toInt16 (envHum.read 3 % 256 * 256 + envHum.read 4 % 256)
      + (setHumidityOffset s0 70)._humOffset)
    (by decide) (by decide) (by decide) (by simp [setHumidityOffset]) rfl).2.2.2.1
    (by
      have hw : toInt16 (envHum.read 3 % 256 * 256 + envHum.read 4 % 256) = 26214 := by decide
      rw [hw]
      simp only [setHumidityOffset]
      norm_num)

/-- C3: with `humidityOffset = 1/2` and a successful `read()` whose payload carries
the raw humidity code h = 0x8000 in bytes 3-4 (all CRC bytes valid), the
offset-corrected value `(100/65535) * 32768 + 1/2` (about 50.5008) lies inside
[0, 100], so the claim requires it to be stored; the code decodes the raw code as
-32768, forms about -49.5008 and stores the clamped value 0, returning OK. -/
theorem read_humidity_offset_code_0x8000 :
    (setHumidityOffset s0 (1 / 2))._humOffset ≠ 0 ∧
    (read (setHumidityOffset s0 (1 / 2)) envGood).2 = CHT832X_OK ∧
    envGood.read 3 % 256 * 256 + envGood.read 4 % 256 = 32768 ∧
    (0 : ℚ) ≤ (100 / 65535 : ℚ) * 32768 + 1 / 2 ∧
    (100 / 65535 : ℚ) * 32768 + 1 / 2 ≤ 100 ∧
    (read (setHumidityOffset s0 (1 / 2)) envGood).1._humidity = 0 ∧
    (read (setHumidityOffset s0 (1 / 2)) envGood).1._humidity
      ≠ (100 / 65535 : ℚ) * 32768 + 1 / 2 := by
  have h := read_ok (setHumidityOffset s0 (1 / 2)) envGood (by decide) (by decide) (by decide)
  have hw : envGood.read 3 % 256 * 256 + envGood.read 4 % 256 = 32768 := by decide
  have hc : _crc8 (envGood.read 0 % 256 * 256 + envGood.read 1 % 256) = envGood.read 2 % 256 ∧
      _crc8 (envGood.read 3 % 256 * 256 + envGood.read 4 % 256) = envGood.read 5 % 256 := by
    decide
  have hi : toInt16 32768 = -32768 := by decide
  have hoff : (setHumidityOffset s0 (1 / 2))._humOffset = 1 / 2 := rfl
  have hne : ((1 : ℚ) / 2) ≠ 0 := by norm_num
  have hlt : (100 / 65535 : ℚ) * ((-32768 : Int) : ℚ) + 1 / 2 < 0 := by norm_num
  rw [h]
  simp only [if_pos hc]
  simp only [hw, hi, hoff, if_neg hne, if_pos hlt]
  refine ⟨hne, trivial, trivial, ?_, ?_, trivial, ?_⟩ <;> norm_num

/-- C4: the golden vectors of the CRC-8: `_crc8(0x0000) = 0x81` and
`_crc8(0xFFFF) = 0xAC`. -/
theorem crc8_golden_vectors : _crc8 0x0000 = 0x81 ∧ _crc8 0xFFFF = 0xAC := by
  decide

/-- C5: if the elapsed time `now - lastReadTimestamp` (unsigned 32-bit) is below
1000 ms, `read()` returns TooSoonError, the sticky error is TooSoonError, no call is
issued to the transport or to `delay`, and `lastReadTimestamp`, `temperature` and
`humidity` (and the offsets and the address) are unchanged. -/
theorem read_rate_limited (s : CHT832X) (e : Env)
    (h : sub32 (e.millis 0) s._lastRead < 1000) :
    (read s e).2 = CHT832X_ERROR_LASTREAD ∧
    (read s e).1._error = CHT832X_ERROR_LASTREAD ∧
    (read s e).1.trace = s.trace ∧
    (read s e).1._lastRead = s._lastRead ∧
    (read s e).1._temperature = s._temperature ∧
    (read s e).1._humidity = s._humidity ∧
    (read s e).1._tempOffset = s._tempOffset ∧
    (read s e).1._humOffset = s._humOffset ∧
    (read s e).1._address = s._address := by
  rw [read_too_soon s e h]
  exact ⟨rfl, rfl, rfl, rfl, rfl, rfl, rfl, rfl, rfl⟩

/-- Witness for C5: the clock has wrapped around; last read at 4294967000, now 500,
so 796 ms have elapsed. -/
theorem read_rate_limited_witness :
    sub32 ((envOf 500 0 6 [0x66, 0x66, 0x93, 0x80, 0x00, 0xA2]).millis 0)
      ({ s0 with _lastRead := 4294967000 } : CHT832X)._lastRead = 796 ∧
    (read { s0 with _lastRead := 4294967000 }
      (envOf 500 0 6 [0x66, 0x66, 0x93, 0x80, 0x00, 0xA2])).2 = CHT832X_ERROR_LASTREAD ∧
    (read { s0 with _lastRead := 4294967000 }
      (envOf 500 0 6 [0x66, 0x66, 0x93, 0x80, 0x00, 0xA2])).1.trace = [] :=
  ⟨by decide,
   (read_rate_limited { s0 with _lastRead := 4294967000 }
      (envOf 500 0 6 [0x66, 0x66, 0x93, 0x80, 0x00, 0xA2]) (by decide)).1,
   (read_rate_limited { s0 with _lastRead := 4294967000 }
      (envOf 500 0 6 [0x66, 0x66, 0x93, 0x80, 0x00, 0xA2]) (by decide)).2.2.1⟩

/-- C6: when the rate limit passes and the measurement transaction fails (the command
write is not acknowledged, or the transport reports a byte count other than 6),
`read()` returns BusError, the sticky error is BusError, and `temperature` and
`humidity` keep the values they had before the call. -/
theorem read_bus_failure (s : CHT832X) (e : Env)
    (hrate : ¬ sub32 (e.millis 0) s._lastRead < 1000)
    (hfail : e.endTransmission ≠ 0 ∨ e.requestFrom ≠ 6) :
    (read s e).2 = CHT832X_ERROR_I2C ∧
    (read s e).1._error = CHT832X_ERROR_I2C ∧
    (read s e).1._temperature = s._temperature ∧
    (read s e).1._humidity = s._humidity := by
  obtain ⟨hret, herr, htemp, hhum, -⟩ := read_fail s e hrate hfail
  exact ⟨hret, herr, htemp, hhum⟩

/-- Witness for C6: the command write is answered with status 2. -/
theorem read_bus_failure_witness :
    (read sMeasured envNack).2 = CHT832X_ERROR_I2C ∧
    (read sMeasured envNack).1._error = CHT832X_ERROR_I2C ∧
    (read sMeasured envNack).1._temperature = sMeasured._temperature ∧
    (read sMeasured envNack).1._humidity = sMeasured._humidity :=
  read_bus_failure sMeasured envNack (by decide) (by decide)

/-- C8: for every `read()` that passes the rate limit and whose bus transaction
succeeds, the returned code is OK exactly when byte 2 is the CRC-8 of bytes 0-1 and
byte 5 is the CRC-8 of bytes 3-4, and CrcError otherwise (a temperature mismatch is
reported even when the humidity CRC matches); the returned code is the sticky error. -/
theorem read_return_code (s : CHT832X) (e : Env)
    (hrate : ¬ sub32 (e.millis 0) s._lastRead < 1000)
    (h1 : e.endTransmission = 0) (h2 : e.requestFrom = 6) :
    ((read s e).2 = CHT832X_OK ↔
      (_crc8 (e.read 0 % 256 * 256 + e.read 1 % 256) = e.read 2 % 256 ∧
       _crc8 (e.read 3 % 256 * 256 + e.read 4 % 256) = e.read 5 % 256)) ∧
    ((read s e).2 ≠ CHT832X_OK → (read s e).2 = CHT832X_ERROR_CRC) ∧
    (_crc8 (e.read 0 % 256 * 256 + e.read 1 % 256) ≠ e.read 2 % 256 →
      (read s e).2 = CHT832X_ERROR_CRC) ∧
    (read s e).2 = (read s e).1._error := by
  rw [read_ok s e hrate h1 h2]
  by_cases hc : _crc8 (e.read 0 % 256 * 256 + e.read 1 % 256) = e.read 2 % 256 ∧
      _crc8 (e.read 3 % 256 * 256 + e.read 4 % 256) = e.read 5 % 256
  · rw [if_pos hc]
    exact ⟨⟨fun _ => hc, fun _ => rfl⟩, fun h => absurd rfl h, fun h => absurd hc.1 h, rfl⟩
  · rw [if_neg hc]
    have hne : CHT832X_ERROR_CRC ≠ CHT832X_OK := by decide
    exact ⟨⟨fun h => absurd h hne, fun h => absurd h hc⟩, fun _ => rfl, fun _ => rfl, rfl⟩

/-- Witness for C8: with a corrupted temperature CRC byte and a valid humidity CRC
byte the read returns CrcError. -/
theorem read_return_code_witness :
    _crc8 (envBadCrc.read 3 % 256 * 256 + envBadCrc.read 4 % 256) = envBadCrc.read 5 % 256 ∧
    (read s0 envBadCrc).2 = CHT832X_ERROR_CRC :=
  ⟨by decide,
   (read_return_code s0 envBadCrc (by decide) (by decide) (by decide)).2.2.1 (by decide)⟩

/-- C9: after a failed bus transaction (command not acknowledged, or only 2 of 3
bytes reported) `getStatusRegister()`, `getNIST(0)` and `getManufacturer()` do not
stop: they decode the untouched zero buffer, return 0, and the CRC test on it
(`_crc8(0) = 0x81`, not 0) leaves the sticky error at CrcError, not BusError. -/
theorem register_reads_mask_bus_error :
    (getStatusRegister s0 envNack).1._error = CHT832X_ERROR_CRC ∧
    (getStatusRegister s0 envNack).2 = 0 ∧
    (getStatusRegister s0 envShort).1._error = CHT832X_ERROR_CRC ∧
    (getNIST s0 envNack 0).1._error = CHT832X_ERROR_CRC ∧
    (getNIST s0 envShort 0).1._error = CHT832X_ERROR_CRC ∧
    (getManufacturer s0 envNack).1._error = CHT832X_ERROR_CRC ∧
    (getManufacturer s0 envShort).1._error = CHT832X_ERROR_CRC ∧
    (_readRegister s0 envNack CHT832X_CMD_READ_STATUS [0, 0, 0] 3 defaultDel).1._error
      = CHT832X_ERROR_I2C := by
  decide

/-- C10: for every configured address outside [0x44, 0x47], `begin()` returns
AddressError, leaves the sticky error at AddressError, and issues no call to the
transport (the trace and every other member are unchanged). -/
theorem begin_address_error (s : CHT832X) (e : Env)
    (h : s._address < 0x44 ∨ s._address > 0x47) :
    (begin s e).2 = CHT832X_ERROR_ADDR ∧
    (begin s e).1._error = CHT832X_ERROR_ADDR ∧
    (begin s e).1.trace = s.trace ∧
    begin s e = ({ s with _error := CHT832X_ERROR_ADDR }, CHT832X_ERROR_ADDR) := by
  unfold begin
  rw [if_pos h]
  exact ⟨rfl, rfl, rfl, rfl⟩

/-- Witness for C10: address 0x48, with a transport that would acknowledge. -/
theorem begin_address_error_witness :
    (begin { s0 with _address := 0x48 } envGood).2 = CHT832X_ERROR_ADDR ∧
    (begin { s0 with _address := 0x48 } envGood).1.trace = [] :=
  have h := begin_address_error { s0 with _address := 0x48 } envGood (by decide)
  ⟨h.1, h.2.2.1⟩

/-! ## Register reads after a successful transaction -/

theorem word16_lt (e : Env) (i j : Nat) :
    (e.read i % 256 * 256 + e.read j % 256) % 65536 = e.read i % 256 * 256 + e.read j % 256 := by
  omega

/-- The result of a register read whose transaction succeeds: the big-endian value
of bytes 0-1, and the sticky error decided by the CRC test alone. -/
theorem getStatusRegister_ok (s : CHT832X) (e : Env)
    (h1 : e.endTransmission = 0) (h2 : e.requestFrom = 3) :
    getStatusRegister s e =
      ({ (_readRegister s e CHT832X_CMD_READ_STATUS [0, 0, 0] 3 defaultDel).1 with
          _error := if _crc8 (e.read 0 % 256 * 256 + e.read 1 % 256) = e.read 2 % 256
            then CHT832X_OK else CHT832X_ERROR_CRC },
       e.read 0 % 256 * 256 + e.read 1 % 256) := by
  have hb := (readRegister_ok s e CHT832X_CMD_READ_STATUS [0, 0, 0] 3 defaultDel h1 h2).1
  rw [fill3] at hb
  by_cases hc : _crc8 (e.read 0 % 256 * 256 + e.read 1 % 256) = e.read 2 % 256 <;>
  simp [getStatusRegister, hb, word16_lt, hc]

theorem getNIST_ok (s : CHT832X) (e : Env) (id : Nat) (hid : id ≤ 2)
    (h1 : e.endTransmission = 0) (h2 : e.requestFrom = 3) :
    getNIST s e id =
      ({ (_readRegister s e ((CHT832X_CMD_READ_NIST_BASE + id) % 65536) [0, 0, 0] 3
            defaultDel).1 with
          _error := if _crc8 (e.read 0 % 256 * 256 + e.read 1 % 256) = e.read 2 % 256
            then CHT832X_OK else CHT832X_ERROR_CRC },
       e.read 0 % 256 * 256 + e.read 1 % 256) := by
  have hb := (readRegister_ok s e ((CHT832X_CMD_READ_NIST_BASE + id) % 65536) [0, 0, 0] 3
    defaultDel h1 h2).1
  rw [fill3] at hb
  have hid2 : ¬ id > 2 := by omega
  by_cases hc : _crc8 (e.read 0 % 256 * 256 + e.read 1 % 256) = e.read 2 % 256 <;>
  simp [getNIST, hid2, hb, word16_lt, hc]

theorem getManufacturer_ok (s : CHT832X) (e : Env)
    (h1 : e.endTransmission = 0) (h2 : e.requestFrom = 3) :
    getManufacturer s e =
      ({ (_readRegister s e CHT832X_CMD_READ_MANUFACTURER [0, 0, 0] 3 defaultDel).1 with
          _error := if _crc8 (e.read 0 % 256 * 256 + e.read 1 % 256) = e.read 2 % 256
            then CHT832X_OK else CHT832X_ERROR_CRC },
       e.read 0 % 256 * 256 + e.read 1 % 256) := by
  have hb := (readRegister_ok s e CHT832X_CMD_READ_MANUFACTURER [0, 0, 0] 3 defaultDel h1 h2).1
  rw [fill3] at hb
  by_cases hc : _crc8 (e.read 0 % 256 * 256 + e.read 1 % 256) = e.read 2 % 256 <;>
  simp [getManufacturer, hb, word16_lt, hc]

/-! ## Claims, continued -/

/-- C11: for every configured address inside [0x44, 0x47], `begin()` issues the
zero-length liveness transaction and returns ConnectError exactly when that
transaction reports a nonzero status; otherwise it returns OK, and the sticky error
afterwards is the returned code, whatever error was stored before the call. -/
theorem begin_connect (s : CHT832X) (e : Env)
    (h : 0x44 ≤ s._address ∧ s._address ≤ 0x47) :
    ((begin s e).2 = CHT832X_ERROR_CONNECT ↔ e.endTransmission ≠ 0) ∧
    (e.endTransmission = 0 → (begin s e).2 = CHT832X_OK ∧ (begin s e).1._error = CHT832X_OK) ∧
    (begin s e).1._error = (begin s e).2 ∧
    (begin s e).1.trace =
      s.trace ++ [Call.beginTransmission s._address, Call.endTransmission] := by
  have hn : ¬ (s._address < 0x44 ∨ s._address > 0x47) := by omega
  unfold begin
  rw [if_neg hn]
  by_cases h0 : e.endTransmission = 0
  · simp [isConnected, h0]
  · simp [isConnected, h0]

/-- Witness for C11: a stored CRC error is replaced by OK when the device at address
0x44 acknowledges. -/
theorem begin_connect_witness :
    (begin sErr envGood).2 = CHT832X_OK ∧ (begin sErr envGood).1._error = CHT832X_OK :=
  (begin_connect sErr envGood (by decide)).2.1 (by decide)

/-- C12: for every 3-byte response `[b0, b1, b2]` delivered by a successful bus
transaction, `getStatusRegister()` returns `b0 * 256 + b1` whether or not the CRC
matches, and afterwards the sticky error is CrcError if `b2` differs from the CRC-8
of that value and OK if it matches. -/
theorem getStatusRegister_value (s : CHT832X) (e : Env)
    (h1 : e.endTransmission = 0) (h2 : e.requestFrom = 3) :
    (getStatusRegister s e).2 = e.read 0 % 256 * 256 + e.read 1 % 256 ∧
    (_crc8 (e.read 0 % 256 * 256 + e.read 1 % 256) ≠ e.read 2 % 256 →
      (getStatusRegister s e).1._error = CHT832X_ERROR_CRC) ∧
    (_crc8 (e.read 0 % 256 * 256 + e.read 1 % 256) = e.read 2 % 256 →
      (getStatusRegister s e).1._error = CHT832X_OK) := by
  rw [getStatusRegister_ok s e h1 h2]
  refine ⟨rfl, fun hc => ?_, fun hc => ?_⟩
  · simp [hc]
  · simp [hc]

/-- Witness for C12: the response 12 34 00 has a wrong CRC byte (the CRC-8 of 0x1234
is 0x37); the value 0x1234 is returned and the sticky error is CrcError. -/
theorem getStatusRegister_value_witness :
    (getStatusRegister s0 envRegBad).2 = 0x1234 ∧
    (getStatusRegister s0 envRegBad).1._error = CHT832X_ERROR_CRC :=
  have h := getStatusRegister_value s0 envRegBad (by decide) (by decide)
  ⟨h.1, h.2.1 (by decide)⟩

/-- C13: for every `id` greater than 2, `getNIST(id)` returns 0 and leaves the whole
driver state unchanged: no call reaches the transport, and the sticky error and
every other member keep their values. -/
theorem getNIST_invalid_id (s : CHT832X) (e : Env) (id : Nat) (h : id > 2) :
    (getNIST s e id).2 = 0 ∧ (getNIST s e id).1 = s ∧
    (getNIST s e id).1.trace = s.trace ∧ (getNIST s e id).1._error = s._error := by
  unfold getNIST
  rw [if_pos h]
  exact ⟨rfl, rfl, rfl, rfl⟩

/-- Witness for C13: `getNIST(3)` on a driver with a stored CRC error. -/
theorem getNIST_invalid_id_witness :
    (getNIST sErr envReg 3).2 = 0 ∧ (getNIST sErr envReg 3).1 = sErr :=
  have h := getNIST_invalid_id sErr envReg 3 (by decide)
  ⟨h.1, h.2.1⟩

/-- C16: `getError()` returns the sticky error stored before the call and resets it
to OK without changing any other member; a second `getError()` right after it
returns OK. -/
theorem getError_read_and_clear (s : CHT832X) :
    (getError s).2 = s._error ∧
    (getError s).1 = { s with _error := CHT832X_OK } ∧
    (getError (getError s).1).2 = CHT832X_OK ∧
    (getError (getError s).1).1 = (getError s).1 :=
  ⟨rfl, rfl, rfl, rfl⟩

/-! ## When the sticky error is OK after an operation -/

theorem writeRegister_error (s : CHT832X) (e : Env) (command : Nat) (buf : List Nat)
    (size : Nat) :
    ((_writeRegister s e command buf size).1._error = CHT832X_OK ↔ e.endTransmission = 0) := by
  unfold _writeRegister
  by_cases h : e.endTransmission = 0
  · simp [h]
  · simp [h]

theorem read_lastRead (s : CHT832X) (e : Env)
    (hrate : ¬ sub32 (e.millis 0) s._lastRead < 1000) :
    (read s e).1._lastRead = e.millis 1 % 4294967296 := by
  by_cases hok : e.endTransmission = 0 ∧ e.requestFrom = 6
  · rw [read_ok s e hrate hok.1 hok.2]
  · have hfail : e.endTransmission ≠ 0 ∨ e.requestFrom ≠ 6 := by
      by_cases h1 : e.endTransmission = 0
      · exact Or.inr (fun h2 => hok ⟨h1, h2⟩)
      · exact Or.inl h1
    exact (read_fail s e hrate hfail).2.2.2.2

theorem read_error_ok_iff (s : CHT832X) (e : Env) :
    ((read s e).1._error = CHT832X_OK ↔
      (¬ sub32 (e.millis 0) s._lastRead < 1000 ∧ e.endTransmission = 0 ∧ e.requestFrom = 6 ∧
        _crc8 (e.read 0 % 256 * 256 + e.read 1 % 256) = e.read 2 % 256 ∧
        _crc8 (e.read 3 % 256 * 256 + e.read 4 % 256) = e.read 5 % 256)) := by
  by_cases hrate : sub32 (e.millis 0) s._lastRead < 1000
  · rw [read_too_soon s e hrate]
    simp [hrate]
  · by_cases hok : e.endTransmission = 0 ∧ e.requestFrom = 6
    · rw [read_ok s e hrate hok.1 hok.2]
      by_cases hc : _crc8 (e.read 0 % 256 * 256 + e.read 1 % 256) = e.read 2 % 256 ∧
          _crc8 (e.read 3 % 256 * 256 + e.read 4 % 256) = e.read 5 % 256
      · simp [hrate, hok.1, hok.2, hc.1, hc.2]
      · have hne : CHT832X_ERROR_CRC ≠ CHT832X_OK := by decide
        simp only [if_neg hc]
        constructor
        · intro h
          exact absurd h hne
        · intro h
          exact absurd h.2.2.2 hc
    · have hfail : e.endTransmission ≠ 0 ∨ e.requestFrom ≠ 6 := by
        by_cases h1 : e.endTransmission = 0
        · exact Or.inr (fun h2 => hok ⟨h1, h2⟩)
        · exact Or.inl h1
      rw [(read_fail s e hrate hfail).2.1]
      constructor
      · intro h
        exact absurd h (by decide)
      · intro h
        exact absurd ⟨h.2.1, h.2.2.1⟩ hok

theorem not_ok_fail (e : Env) (size : Nat) (hok : ¬ (e.endTransmission = 0 ∧ e.requestFrom = size)) :
    e.endTransmission ≠ 0 ∨ e.requestFrom ≠ size := by
  by_cases h1 : e.endTransmission = 0
  · exact Or.inr (fun h2 => hok ⟨h1, h2⟩)
  · exact Or.inl h1

theorem getStatusRegister_error_ok_iff (s : CHT832X) (e : Env) :
    ((getStatusRegister s e).1._error = CHT832X_OK ↔
      (e.endTransmission = 0 ∧ e.requestFrom = 3 ∧
        _crc8 (e.read 0 % 256 * 256 + e.read 1 % 256) = e.read 2 % 256)) := by
  by_cases hok : e.endTransmission = 0 ∧ e.requestFrom = 3
  · rw [getStatusRegister_ok s e hok.1 hok.2]
    by_cases hc : _crc8 (e.read 0 % 256 * 256 + e.read 1 % 256) = e.read 2 % 256
    · simp [hok.1, hok.2, hc]
    · simp [hok.1, hok.2, hc]
  · rw [(register_read_after_failure s e (not_ok_fail e 3 hok)).1]
    constructor
    · intro h
      exact absurd h (show CHT832X_ERROR_CRC ≠ CHT832X_OK by decide)
    · intro h
      exact absurd ⟨h.1, h.2.1⟩ hok

theorem getNIST_error_ok_iff (s : CHT832X) (e : Env) (id : Nat) (hid : id ≤ 2) :
    ((getNIST s e id).1._error = CHT832X_OK ↔
      (e.endTransmission = 0 ∧ e.requestFrom = 3 ∧
        _crc8 (e.read 0 % 256 * 256 + e.read 1 % 256) = e.read 2 % 256)) := by
  by_cases hok : e.endTransmission = 0 ∧ e.requestFrom = 3
  · rw [getNIST_ok s e id hid hok.1 hok.2]
    by_cases hc : _crc8 (e.read 0 % 256 * 256 + e.read 1 % 256) = e.read 2 % 256
    · simp [hok.1, hok.2, hc]
    · simp [hok.1, hok.2, hc]
  · rw [(register_read_after_failure s e (not_ok_fail e 3 hok)).2.1 id hid]
    constructor
    · intro h
      exact absurd h (show CHT832X_ERROR_CRC ≠ CHT832X_OK by decide)
    · intro h
      exact absurd ⟨h.1, h.2.1⟩ hok

theorem getManufacturer_error_ok_iff (s : CHT832X) (e : Env) :
    ((getManufacturer s e).1._error = CHT832X_OK ↔
      (e.endTransmission = 0 ∧ e.requestFrom = 3 ∧
        _crc8 (e.read 0 % 256 * 256 + e.read 1 % 256) = e.read 2 % 256)) := by
  by_cases hok : e.endTransmission = 0 ∧ e.requestFrom = 3
  · rw [getManufacturer_ok s e hok.1 hok.2]
    by_cases hc : _crc8 (e.read 0 % 256 * 256 + e.read 1 % 256) = e.read 2 % 256
    · simp [hok.1, hok.2, hc]
    · simp [hok.1, hok.2, hc]
  · rw [(register_read_after_failure s e (not_ok_fail e 3 hok)).2.2]
    constructor
    · intro h
      exact absurd h (show CHT832X_ERROR_CRC ≠ CHT832X_OK by decide)
    · intro h
      exact absurd ⟨h.1, h.2.1⟩ hok

theorem begin_error_ok_iff (s : CHT832X) (e : Env) :
    ((begin s e).1._error = CHT832X_OK ↔
      (0x44 ≤ s._address ∧ s._address ≤ 0x47 ∧ e.endTransmission = 0)) := by
  unfold begin
  by_cases ha : s._address < 0x44 ∨ s._address > 0x47
  · rw [if_pos ha]
    constructor
    · intro h
      exact absurd h (show CHT832X_ERROR_ADDR ≠ CHT832X_OK by decide)
    · intro h
      omega
  · rw [if_neg ha]
    have ha2 : 0x44 ≤ s._address ∧ s._address ≤ 0x47 := by omega
    by_cases h0 : e.endTransmission = 0
    · simp [isConnected, h0, ha2.1, ha2.2]
    · simp [isConnected, h0]

/-- C14 (as stated, refuted): a driver holding a stored CRC error has it cleared to
OK by heater control, `clearStatusRegister()`, `softwareReset()` and by a register
read with a matching CRC byte, whenever the transport acknowledges. -/
theorem sticky_error_cleared_by_other_operations :
    sErr._error ≠ CHT832X_OK ∧
    (enableHeater sErr envGood)._error = CHT832X_OK ∧
    (enableHeaterFull sErr envGood)._error = CHT832X_OK ∧
    (disableHeater sErr envGood)._error = CHT832X_OK ∧
    (clearStatusRegister sErr envGood)._error = CHT832X_OK ∧
    (softwareReset sErr envGood)._error = CHT832X_OK ∧
    (getStatusRegister { s0 with _error := CHT832X_ERROR_LASTREAD } envReg).1._error
      = CHT832X_OK ∧
    (getNIST { s0 with _error := CHT832X_ERROR_LASTREAD } envReg 0).1._error = CHT832X_OK ∧
    (getManufacturer { s0 with _error := CHT832X_ERROR_LASTREAD } envReg).1._error
      = CHT832X_OK := by
  decide

/-- C14 (amended): starting from a stored non-OK error, the sticky error is OK after
an operation exactly in these cases: `begin()` with an address in [0x44, 0x47] and an
acknowledged probe; a `read()` that passes the rate limit, whose transaction succeeds
and whose two CRC bytes match; `getError()`; a write operation (heater control,
`clearStatusRegister()`, `softwareReset()`) whose transaction is acknowledged; a
register read (`getStatusRegister()`, `getNIST(id)` with `id ≤ 2`,
`getManufacturer()`) whose transaction succeeds with a matching CRC byte. The offset
setters, `isConnected()` and `getNIST(id)` with `id > 2` keep the stored error. -/
theorem sticky_error_clearing (s : CHT832X) (e : Env) (hne : s._error ≠ CHT832X_OK) :
    ((begin s e).1._error = CHT832X_OK ↔
      (0x44 ≤ s._address ∧ s._address ≤ 0x47 ∧ e.endTransmission = 0)) ∧
    ((read s e).1._error = CHT832X_OK ↔
      (¬ sub32 (e.millis 0) s._lastRead < 1000 ∧ e.endTransmission = 0 ∧ e.requestFrom = 6 ∧
        _crc8 (e.read 0 % 256 * 256 + e.read 1 % 256) = e.read 2 % 256 ∧
        _crc8 (e.read 3 % 256 * 256 + e.read 4 % 256) = e.read 5 % 256)) ∧
    (getError s).1._error = CHT832X_OK ∧
    ((enableHeater s e)._error = CHT832X_OK ↔ e.endTransmission = 0) ∧
    ((enableHeaterFull s e)._error = CHT832X_OK ↔ e.endTransmission = 0) ∧
    ((enableHeaterHalf s e)._error = CHT832X_OK ↔ e.endTransmission = 0) ∧
    ((enableHeaterQuarter s e)._error = CHT832X_OK ↔ e.endTransmission = 0) ∧
    ((disableHeater s e)._error = CHT832X_OK ↔ e.endTransmission = 0) ∧
    ((clearStatusRegister s e)._error = CHT832X_OK ↔ e.endTransmission = 0) ∧
    ((softwareReset s e)._error = CHT832X_OK ↔ e.endTransmission = 0) ∧
    ((getStatusRegister s e).1._error = CHT832X_OK ↔
      (e.endTransmission = 0 ∧ e.requestFrom = 3 ∧
        _crc8 (e.read 0 % 256 * 256 + e.read 1 % 256) = e.read 2 % 256)) ∧
    (∀ id : Nat, ((getNIST s e id).1._error = CHT832X_OK ↔
      (id ≤ 2 ∧ e.endTransmission = 0 ∧ e.requestFrom = 3 ∧
        _crc8 (e.read 0 % 256 * 256 + e.read 1 % 256) = e.read 2 % 256))) ∧
    ((getManufacturer s e).1._error = CHT832X_OK ↔
      (e.endTransmission = 0 ∧ e.requestFrom = 3 ∧
        _crc8 (e.read 0 % 256 * 256 + e.read 1 % 256) = e.read 2 % 256)) ∧
    (∀ offset : ℚ, (setHumidityOffset s offset)._error = s._error) ∧
    (∀ offset : ℚ, (setTemperatureOffset s offset)._error = s._error) ∧
    (isConnected s e).1._error = s._error := by
  refine ⟨begin_error_ok_iff s e, read_error_ok_iff s e, rfl,
    writeRegister_error s e _ _ _, writeRegister_error s e _ _ _,
    writeRegister_error s e _ _ _, writeRegister_error s e _ _ _,
    writeRegister_error s e _ _ _, writeRegister_error s e _ _ _,
    writeRegister_error s e _ _ _, getStatusRegister_error_ok_iff s e, ?_,
    getManufacturer_error_ok_iff s e, fun _ => rfl, fun _ => rfl, rfl⟩
  intro id
  by_cases hid : id ≤ 2
  · rw [getNIST_error_ok_iff s e id hid]
    simp [hid]
  · have hgt : id > 2 := by omega
    unfold getNIST
    rw [if_pos hgt]
    constructor
    · intro h
      exact absurd h hne
    · intro h
      exact absurd h.1 hid

/-- Witness for C14 (amended): with a stored CRC error and a transport that does not
acknowledge, `enableHeater()` does not end in OK, and the offset setters keep the
stored error. -/
theorem sticky_error_clearing_witness :
    ¬ (enableHeater sErr envNack)._error = CHT832X_OK ∧
    (setHumidityOffset sErr 5)._error = CHT832X_ERROR_CRC :=
  have h := sticky_error_clearing sErr envNack (by decide)
  ⟨fun hok => absurd (h.2.2.2.1.mp hok) (by decide), h.2.2.2.2.2.2.2.2.2.2.2.2.2.1 5⟩

/-- C17 (as stated, refuted): the driver last read at 0 ms; a first `read()` at
t1 = 999 ms is rejected as too soon and leaves the timestamp alone, so a second
`read()` at t2 = 1000 ms (1 ms later) passes the rate limit, returns OK and changes
`lastReadTimestamp`, `temperature` and `humidity`. -/
theorem read_second_call_not_rate_limited :
    (999 : Nat) ≤ 1000 ∧ 1000 - 999 < 1000 ∧
    (read s0 envEarly).2 = CHT832X_ERROR_LASTREAD ∧
    (read (read s0 envEarly).1 envGood).2 = CHT832X_OK ∧
    (read (read s0 envEarly).1 envGood).1._lastRead = 1000 ∧
    (read s0 envEarly).1._lastRead = 0 ∧
    (read (read s0 envEarly).1 envGood).1._temperature ≠ (read s0 envEarly).1._temperature := by
  have h1 : read s0 envEarly = ({ s0 with _error := CHT832X_ERROR_LASTREAD },
      CHT832X_ERROR_LASTREAD) := read_too_soon s0 envEarly (by decide)
  have h2 := read_ok { s0 with _error := CHT832X_ERROR_LASTREAD } envGood (by decide)
    (by decide) (by decide)
  have hc : _crc8 (envGood.read 0 % 256 * 256 + envGood.read 1 % 256) = envGood.read 2 % 256 ∧
      _crc8 (envGood.read 3 % 256 * 256 + envGood.read 4 % 256) = envGood.read 5 % 256 := by
    decide
  have hw : toInt16 (envGood.read 0 % 256 * 256 + envGood.read 1 % 256) = 26214 := by decide
  rw [h1]
  simp only []
  rw [h2]
  simp only [if_pos hc, hw]
  refine ⟨by decide, by decide, trivial, trivial, by decide, by decide, ?_⟩
  simp [s0]
  norm_num

/-- C17 (amended): if the first of two consecutive `read()` calls passed the rate
limit (whatever its outcome after that: OK, CrcError or BusError) and stored the
timestamp t1, then a second call at a clock value t2 with t1 ≤ t2 and
t2 - t1 < 1000 fails with TooSoonError and does not alter `temperature`, `humidity`
or `lastReadTimestamp`. -/
theorem read_second_call_rate_limited (s : CHT832X) (e1 e2 : Env) (t1 t2 : Nat)
    (hfirst : ¬ sub32 (e1.millis 0) s._lastRead < 1000)
    (ht1 : e1.millis 1 = t1) (ht2 : e2.millis 0 = t2)
    (hle : t1 ≤ t2) (hlt : t2 - t1 < 1000) :
    (read (read s e1).1 e2).2 = CHT832X_ERROR_LASTREAD ∧
    (read (read s e1).1 e2).1._temperature = (read s e1).1._temperature ∧
    (read (read s e1).1 e2).1._humidity = (read s e1).1._humidity ∧
    (read (read s e1).1 e2).1._lastRead = (read s e1).1._lastRead ∧
    (read (read s e1).1 e2).1.trace = (read s e1).1.trace := by
  have hl := read_lastRead s e1 hfirst
  have hsoon : sub32 (e2.millis 0) (read s e1).1._lastRead < 1000 := by
    rw [hl, ht1, ht2]
    unfold sub32
    omega
  rw [read_too_soon _ e2 hsoon]
  exact ⟨rfl, rfl, rfl, rfl, rfl⟩

/-- Witness for C17 (amended): a first read at 1000 ms succeeds, a second read at
1500 ms is rejected. -/
theorem read_second_call_rate_limited_witness :
    (read (read s0 envGood).1 envLater).2 = CHT832X_ERROR_LASTREAD ∧
    (read (read s0 envGood).1 envLater).1._temperature = (read s0 envGood).1._temperature :=
  have h := read_second_call_rate_limited s0 envGood envLater 1000 1500 (by decide) (by decide)
    (by decide) (by decide) (by decide)
  ⟨h.1, h.2.1⟩

/-! ## The bytes written to the bus -/

theorem written_replicate_read (n : Nat) : written (List.replicate n Call.read) = [] := by
  induction n with
  | zero => rfl
  | succ k ih => simpa [List.replicate_succ, written] using ih

/-- The calls of `_readRegister`: the command, high byte first, and no further
write. -/
theorem readRegister_trace (s : CHT832X) (e : Env) (command : Nat) (buf : List Nat)
    (size del : Nat) :
    ∃ rest, (_readRegister s e command buf size del).1.trace =
        s.trace ++ [Call.beginTransmission s._address, Call.write ((command >>> 8) % 256),
          Call.write (command &&& 0xFF), Call.endTransmission] ++ rest ∧
      written rest = [] := by
  unfold _readRegister
  by_cases h1 : e.endTransmission = 0
  · by_cases h2 : e.requestFrom = size
    · by_cases hd : del > 0
      · refine ⟨[Call.delay del, Call.requestFrom s._address size] ++
          List.replicate size Call.read, ?_, ?_⟩
        · simp [h1, h2, hd]
        · simp [written, written_replicate_read]
      · refine ⟨[Call.requestFrom s._address size] ++ List.replicate size Call.read, ?_, ?_⟩
        · simp [h1, h2, hd]
        · simp [written, written_replicate_read]
    · by_cases hd : del > 0
      · refine ⟨[Call.delay del, Call.requestFrom s._address size], ?_, ?_⟩
        · simp [h1, h2, hd]
        · simp [written]
      · refine ⟨[Call.requestFrom s._address size], ?_, ?_⟩
        · simp [h1, h2, hd]
        · simp [written]
  · refine ⟨[], ?_, ?_⟩
    · simp [h1]
    · rfl

/-- The calls of `_writeRegister`: the command, high byte first, then the payload. -/
theorem writeRegister_trace (s : CHT832X) (e : Env) (command : Nat) (buf : List Nat)
    (size : Nat) :
    (_writeRegister s e command buf size).1.trace =
      s.trace ++ [Call.beginTransmission s._address, Call.write ((command >>> 8) % 256),
        Call.write (command &&& 0xFF)] ++
      (List.range size).map (fun i => Call.write (buf.getD i 0)) ++ [Call.endTransmission] := by
  unfold _writeRegister
  by_cases h : e.endTransmission = 0
  · simp [h]
  · simp [h]

theorem read_trace (s : CHT832X) (e : Env)
    (hrate : ¬ sub32 (e.millis 0) s._lastRead < 1000) :
    (read s e).1.trace =
      (_readRegister { s with _lastRead := e.millis 1 % 4294967296 } e CHT832X_CMD_READ
        [0, 0, 0, 0, 0, 0] 6 CHT832X_READ_DELAY).1.trace := by
  by_cases hok : e.endTransmission = 0 ∧ e.requestFrom = 6
  · rw [read_ok s e hrate hok.1 hok.2]
    have hand : (57344 &&& 255 : Nat) = 0 := by decide
    simp [_readRegister, hok.1, hok.2, CHT832X_READ_DELAY, CHT832X_CMD_READ, hand]
  · have herr := (readRegister_fail { s with _lastRead := e.millis 1 % 4294967296 } e
      CHT832X_CMD_READ [0, 0, 0, 0, 0, 0] 6 CHT832X_READ_DELAY (not_ok_fail e 6 hok)).2.1
    have hne : (_readRegister { s with _lastRead := e.millis 1 % 4294967296 } e CHT832X_CMD_READ
        [0, 0, 0, 0, 0, 0] 6 CHT832X_READ_DELAY).1._error ≠ CHT832X_OK := by
      rw [herr]; decide
    unfold read
    rw [if_neg hrate]
    simp only [if_pos hne]

theorem getStatusRegister_trace (s : CHT832X) (e : Env) :
    (getStatusRegister s e).1.trace =
      (_readRegister s e CHT832X_CMD_READ_STATUS [0, 0, 0] 3 defaultDel).1.trace := by
  unfold getStatusRegister
  simp only []
  split_ifs <;> rfl

theorem getNIST_trace (s : CHT832X) (e : Env) (id : Nat) (hid : id ≤ 2) :
    (getNIST s e id).1.trace =
      (_readRegister s e ((CHT832X_CMD_READ_NIST_BASE + id) % 65536) [0, 0, 0] 3
        defaultDel).1.trace := by
  have hid2 : ¬ id > 2 := by omega
  unfold getNIST
  rw [if_neg hid2]
  simp only []
  split_ifs <;> rfl

theorem getManufacturer_trace (s : CHT832X) (e : Env) :
    (getManufacturer s e).1.trace =
      (_readRegister s e CHT832X_CMD_READ_MANUFACTURER [0, 0, 0] 3 defaultDel).1.trace := by
  unfold getManufacturer
  simp only []
  split_ifs <;> rfl

/-- C15: every command-issuing operation opens a transmission to the device
address and writes its 16-bit command code high byte first, followed by exactly its
payload bytes; the write operations then end the transmission, and the read
operations issue no further write (`rest` holds only delay, request and read calls).
`read()` is taken past the rate limit, `getNIST(id)` at id = 0, 1, 2. -/
theorem command_bytes_on_the_bus (s : CHT832X) (e : Env)
    (hrate : ¬ sub32 (e.millis 0) s._lastRead < 1000) :
    (∃ rest, (read s e).1.trace = s.trace ++ [Call.beginTransmission s._address,
        Call.write 0xE0, Call.write 0x00, Call.endTransmission] ++ rest ∧ written rest = []) ∧
    (enableHeater s e).trace = s.trace ++ [Call.beginTransmission s._address,
        Call.write 0x30, Call.write 0x6D, Call.endTransmission] ∧
    (disableHeater s e).trace = s.trace ++ [Call.beginTransmission s._address,
        Call.write 0x30, Call.write 0x66, Call.endTransmission] ∧
    (enableHeaterFull s e).trace = s.trace ++ [Call.beginTransmission s._address,
        Call.write 0x30, Call.write 0x6E, Call.write 0x3F, Call.write 0xFF, Call.write 0x06,
        Call.endTransmission] ∧
    (enableHeaterHalf s e).trace = s.trace ++ [Call.beginTransmission s._address,
        Call.write 0x30, Call.write 0x6E, Call.write 0x03, Call.write 0xFF, Call.write 0x00,
        Call.endTransmission] ∧
    (enableHeaterQuarter s e).trace = s.trace ++ [Call.beginTransmission s._address,
        Call.write 0x30, Call.write 0x6E, Call.write 0x00, Call.write 0x9F, Call.write 0x96,
        Call.endTransmission] ∧
    (∃ rest, (getStatusRegister s e).1.trace = s.trace ++ [Call.beginTransmission s._address,
        Call.write 0xF3, Call.write 0x2D, Call.endTransmission] ++ rest ∧ written rest = []) ∧
    (clearStatusRegister s e).trace = s.trace ++ [Call.beginTransmission s._address,
        Call.write 0x30, Call.write 0x41, Call.endTransmission] ∧
    (softwareReset s e).trace = s.trace ++ [Call.beginTransmission s._address,
        Call.write 0x30, Call.write 0xA2, Call.endTransmission] ∧
    (∃ rest, (getNIST s e 0).1.trace = s.trace ++ [Call.beginTransmission s._address,
        Call.write 0x36, Call.write 0x83, Call.endTransmission] ++ rest ∧ written rest = []) ∧
    (∃ rest, (getNIST s e 1).1.trace = s.trace ++ [Call.beginTransmission s._address,
        Call.write 0x36, Call.write 0x84, Call.endTransmission] ++ rest ∧ written rest = []) ∧
    (∃ rest, (getNIST s e 2).1.trace = s.trace ++ [Call.beginTransmission s._address,
        Call.write 0x36, Call.write 0x85, Call.endTransmission] ++ rest ∧ written rest = []) ∧
    (∃ rest, (getManufacturer s e).1.trace = s.trace ++ [Call.beginTransmission s._address,
        Call.write 0x37, Call.write 0x81, Call.endTransmission] ++ rest ∧ written rest = []) := by
  refine ⟨?_, ?_, ?_, ?_, ?_, ?_, ?_, ?_, ?_, ?_, ?_, ?_, ?_⟩
  · rw [read_trace s e hrate]
    exact readRegister_trace _ e CHT832X_CMD_READ _ 6 CHT832X_READ_DELAY
  · rw [enableHeater, writeRegister_trace]
    simp [CHT832X_CMD_ENABLE_HEATER]
    decide
  · rw [disableHeater, writeRegister_trace]
    simp [CHT832X_CMD_DISABLE_HEATER]
    decide
  · rw [enableHeaterFull, writeRegister_trace]
    simp [CHT832X_CMD_CONFIG_HEATER, List.range_succ]
    decide
  · rw [enableHeaterHalf, writeRegister_trace]
    simp [CHT832X_CMD_CONFIG_HEATER, List.range_succ]
    decide
  · rw [enableHeaterQuarter, writeRegister_trace]
    simp [CHT832X_CMD_CONFIG_HEATER, List.range_succ]
    decide
  · rw [getStatusRegister_trace]
    exact readRegister_trace s e CHT832X_CMD_READ_STATUS _ 3 defaultDel
  · rw [clearStatusRegister, writeRegister_trace]
    simp [CHT832X_CMD_CLEAR_STATUS]
    decide
  · rw [softwareReset, writeRegister_trace]
    simp [CHT832X_CMD_SOFTWARE_RESET]
    decide
  · rw [getNIST_trace s e 0 (by decide)]
    exact readRegister_trace s e ((CHT832X_CMD_READ_NIST_BASE + 0) % 65536) _ 3 defaultDel
  · rw [getNIST_trace s e 1 (by decide)]
    exact readRegister_trace s e ((CHT832X_CMD_READ_NIST_BASE + 1) % 65536) _ 3 defaultDel
  · rw [getNIST_trace s e 2 (by decide)]
    exact readRegister_trace s e ((CHT832X_CMD_READ_NIST_BASE + 2) % 65536) _ 3 defaultDel
  · rw [getManufacturer_trace]
    exact readRegister_trace s e CHT832X_CMD_READ_MANUFACTURER _ 3 defaultDel

/-- Witness for C15: on a fresh driver at address 0x44, with the clock at 1000 ms. -/
theorem command_bytes_on_the_bus_witness :
    (∃ rest, (read s0 envGood).1.trace = s0.trace ++ [Call.beginTransmission s0._address,
        Call.write 0xE0, Call.write 0x00, Call.endTransmission] ++ rest ∧ written rest = []) ∧
    (softwareReset s0 envGood).trace = s0.trace ++ [Call.beginTransmission s0._address,
        Call.write 0x30, Call.write 0xA2, Call.endTransmission] :=
  have h := command_bytes_on_the_bus s0 envGood (by decide)
  ⟨h.1, h.2.2.2.2.2.2.2.2.1⟩

/-- C20: each of the three fixed heater-configuration payloads is a CRC-valid frame
under the driver's own `_crc8`: `_crc8(0x3FFF) = 0x06`, `_crc8(0x03FF) = 0x00` and
`_crc8(0x009F) = 0x96`, so the third payload byte that `enableHeaterFull()`,
`enableHeaterHalf()` and `enableHeaterQuarter()` write is the CRC-8 of the first
two. -/
theorem heater_payloads_crc_valid (s : CHT832X) (e : Env) :
    _crc8 0x3FFF = 0x06 ∧ _crc8 0x03FF = 0x00 ∧ _crc8 0x009F = 0x96 ∧
    written ((enableHeaterFull s e).trace.drop s.trace.length) =
      [0x30, 0x6E, 0x3F, 0xFF, _crc8 (0x3F * 256 + 0xFF)] ∧
    written ((enableHeaterHalf s e).trace.drop s.trace.length) =
      [0x30, 0x6E, 0x03, 0xFF, _crc8 (0x03 * 256 + 0xFF)] ∧
    written ((enableHeaterQuarter s e).trace.drop s.trace.length) =
      [0x30, 0x6E, 0x00, 0x9F, _crc8 (0x00 * 256 + 0x9F)] := by
  have h1 : _crc8 (0x3F * 256 + 0xFF) = 0x06 := by decide
  have h2 : _crc8 (0x03 * 256 + 0xFF) = 0x00 := by decide
  have h3 : _crc8 (0x00 * 256 + 0x9F) = 0x96 := by decide
  refine ⟨by decide, by decide, by decide, ?_, ?_, ?_⟩
  · rw [h1, enableHeaterFull, writeRegister_trace]
    simp [CHT832X_CMD_CONFIG_HEATER, List.range_succ, written]
    decide
  · rw [h2, enableHeaterHalf, writeRegister_trace]
    simp [CHT832X_CMD_CONFIG_HEATER, List.range_succ, written]
    decide
  · rw [h3, enableHeaterQuarter, writeRegister_trace]
    simp [CHT832X_CMD_CONFIG_HEATER, List.range_succ, written]
    decide

/-! ## Bitwise arithmetic -/

theorem and_128 (a : Nat) : a &&& 128 = if a.testBit 7 then 128 else 0 := by
  apply Nat.eq_of_testBit_eq
  intro i
  have h128 : ∀ j, Nat.testBit 128 j = decide (7 = j) := fun j =>
    Nat.testBit_two_pow (n := 7) (m := j)
  rw [Nat.testBit_and, h128]
  by_cases hi : 7 = i
  · subst hi
    cases h : a.testBit 7 <;> simp [h, h128]
  · cases h : a.testBit 7 <;> simp [h, hi, h128]

theorem shl_xor (a b k : Nat) : (a ^^^ b) <<< k = (a <<< k) ^^^ (b <<< k) := by
  apply Nat.eq_of_testBit_eq
  intro i
  simp only [Nat.testBit_shiftLeft, Nat.testBit_xor]
  cases decide (i ≥ k) <;> simp

theorem mod256_xor (a b : Nat) : (a ^^^ b) % 256 = (a % 256) ^^^ (b % 256) := by
  have h : (256 : Nat) = 2 ^ 8 := by norm_num
  rw [h, ← Nat.and_pow_two_sub_one_eq_mod, ← Nat.and_pow_two_sub_one_eq_mod,
    ← Nat.and_pow_two_sub_one_eq_mod, Nat.and_xor_distrib_right]

theorem shl8_xor (hi lo : Nat) (hlo : lo < 256) : (hi <<< 8) ^^^ lo = hi * 256 + lo := by
  rw [← shl8_lor hi lo hlo]
  apply Nat.eq_of_testBit_eq
  intro i
  simp only [Nat.testBit_xor, Nat.testBit_or, Nat.testBit_shiftLeft]
  by_cases hi8 : i ≥ 8
  · have hpow : 256 ≤ 2 ^ i := by
      calc 256 = 2 ^ 8 := by norm_num
        _ ≤ 2 ^ i := Nat.pow_le_pow_right (by norm_num) hi8
    have hbit : lo.testBit i = false := Nat.testBit_lt_two_pow (lt_of_lt_of_le hlo hpow)
    simp [hbit]
  · simp [hi8]

theorem xor_left_comm (a b c : Nat) : a ^^^ (b ^^^ c) = b ^^^ (a ^^^ c) := by
  rw [← Nat.xor_assoc, Nat.xor_comm a b, Nat.xor_assoc]

theorem xor_lt_256 (a b : Nat) (ha : a < 256) (hb : b < 256) : a ^^^ b < 256 :=
  Nat.xor_lt_two_pow (n := 8) ha hb

theorem split16 (d : Nat) : ((d >>> 8) <<< 8) ^^^ (d % 256) = d := by
  rw [shl8_xor _ _ (Nat.mod_lt _ (by decide)), Nat.shiftRight_eq_div_pow]
  omega

/-! ## Linearity of the CRC steps -/

/-- One round of the inner loop of `_crc8`: shift left within a byte, and XOR the
polynomial in when the top bit was set. -/
theorem crc8_bits_succ (i c : Nat) :
    _crc8.bits (i + 1) c =
      _crc8.bits i (((c <<< 1) % 256) ^^^ (if c.testBit 7 then 0x31 else 0)) := by
  have h : c &&& (1 <<< 7) = if c.testBit 7 then 128 else 0 := and_128 c
  rw [_crc8.bits, h]
  cases c.testBit 7 <;> simp

theorem crc8_bits_xor : ∀ (i a b : Nat),
    _crc8.bits i (a ^^^ b) = _crc8.bits i a ^^^ _crc8.bits i b := by
  intro i
  induction i with
  | zero => intro a b; rfl
  | succ k ih =>
    intro a b
    rw [crc8_bits_succ, crc8_bits_succ, crc8_bits_succ, ← ih, shl_xor, mod256_xor,
      Nat.testBit_xor]
    congr 1
    cases a.testBit 7 <;> cases b.testBit 7 <;>
      simp [Nat.xor_assoc, Nat.xor_comm, xor_left_comm, Nat.xor_cancel_left]

theorem gf2Mod_xor (g deg : Nat) : ∀ (k a b : Nat),
    gf2Mod g deg k (a ^^^ b) = gf2Mod g deg k a ^^^ gf2Mod g deg k b := by
  intro k
  induction k with
  | zero => intro a b; rfl
  | succ k ih =>
    intro a b
    rw [gf2Mod, gf2Mod, gf2Mod, ← ih, Nat.testBit_xor]
    congr 1
    cases a.testBit (deg + k) <;> cases b.testBit (deg + k) <;>
      simp [Nat.xor_assoc, Nat.xor_comm, xor_left_comm, Nat.xor_cancel_left]

/-- The two rounds of the outer loop of `_crc8`, written out. -/
theorem crc8_eq (d : Nat) :
    _crc8 d = _crc8.bits 8 (_crc8.bits 8 (0xFF ^^^ ((d >>> 8) % 256)) ^^^ (d % 256)) := by
  have h : d &&& 0xFF = d % 256 := Nat.and_pow_two_sub_one_eq_mod d 8
  simp only [_crc8, _crc8.loop, h, Nat.mod_mod]

theorem crc8_bytes (c0 c1 : Nat) (h0 : c0 < 256) (h1 : c1 < 256) :
    _crc8 (c0 * 256 + c1) = _crc8.bits 8 (_crc8.bits 8 (0xFF ^^^ c0) ^^^ c1) := by
  have ha : ((c0 * 256 + c1) >>> 8) % 256 = c0 := by
    rw [Nat.shiftRight_eq_div_pow]
    omega
  have hb : (c0 * 256 + c1) % 256 = c1 := by omega
  rw [crc8_eq, ha, hb]

/-! ## Division of single bytes -/

theorem gf2Mod_high_byte :
    ∀ h < 256, gf2Mod 0x131 8 16 ((h <<< 8) <<< 8) = _crc8.bits 8 (_crc8.bits 8 h) := by
  decide!

theorem gf2Mod_low_byte : ∀ l < 256, gf2Mod 0x131 8 16 (l <<< 8) = _crc8.bits 8 l := by
  decide!

theorem gf2Mod_init :
    gf2Mod 0x131 8 16 (0xFF00 <<< 8) = _crc8.bits 8 (_crc8.bits 8 0xFF) := by
  decide

/-! ## Long division computes the remainder -/

theorem gf2Quot_lt (g deg : Nat) : ∀ (k a : Nat), gf2Quot g deg k a < 2 ^ k := by
  intro k
  induction k with
  | zero => intro a; simp [gf2Quot]
  | succ k ih =>
    intro a
    unfold gf2Quot
    split
    · apply Nat.xor_lt_two_pow
      · exact Nat.pow_lt_pow_right (by norm_num) (Nat.lt_succ_self k)
      · exact lt_trans (ih _) (Nat.pow_lt_pow_right (by norm_num) (Nat.lt_succ_self k))
    · exact lt_trans (ih _) (Nat.pow_lt_pow_right (by norm_num) (Nat.lt_succ_self k))

theorem gf2Mul_congr (a a1 b : Nat) : ∀ n, (∀ i < n, a.testBit i = a1.testBit i) →
    gf2Mul a b n = gf2Mul a1 b n := by
  intro n
  induction n with
  | zero => intro _; rfl
  | succ n ih =>
    intro h
    rw [gf2Mul, gf2Mul, h n (Nat.lt_succ_self n), ih (fun i hi => h i (Nat.lt_succ_of_lt hi))]

/-- The dividend is quotient times divisor plus remainder, over GF(2). -/
theorem gf2_division (g deg : Nat) : ∀ (k a : Nat),
    a = gf2Mul (gf2Quot g deg k a) g k ^^^ gf2Mod g deg k a := by
  intro k
  induction k with
  | zero => intro a; simp [gf2Mul, gf2Mod]
  | succ k ih =>
    intro a
    rw [gf2Mul, gf2Quot, gf2Mod]
    by_cases hb : a.testBit (deg + k) = true
    · simp only [hb, if_true]
      have hq := gf2Quot_lt g deg k (a ^^^ g <<< k)
      have htop : (2 ^ k ^^^ gf2Quot g deg k (a ^^^ g <<< k)).testBit k = true := by
        rw [Nat.testBit_xor, Nat.testBit_two_pow_self, Nat.testBit_lt_two_pow hq]
        rfl
      have hlow : ∀ i < k, (2 ^ k ^^^ gf2Quot g deg k (a ^^^ g <<< k)).testBit i
          = (gf2Quot g deg k (a ^^^ g <<< k)).testBit i := by
        intro i hi
        rw [Nat.testBit_xor, Nat.testBit_two_pow_of_ne (Nat.ne_of_gt hi)]
        simp
      rw [htop, if_pos rfl, gf2Mul_congr _ _ g k hlow, Nat.xor_assoc, ← ih (a ^^^ g <<< k)]
      rw [xor_left_comm, Nat.xor_self, Nat.xor_zero]
    · have hb0 : a.testBit (deg + k) = false := by simpa using hb
      simp only [hb0, Bool.false_eq_true, if_false]
      have hq := gf2Quot_lt g deg k a
      rw [Nat.testBit_lt_two_pow hq]
      simp only [Bool.false_eq_true, if_false, Nat.zero_xor]
      exact ih a

theorem lt_of_top_clear (a n : Nat) (ha : a < 2 ^ (n + 1)) (hb : a.testBit n = false) :
    a < 2 ^ n := by
  apply Nat.lt_pow_two_of_testBit
  intro i hi
  by_cases h : i = n
  · rw [h]; exact hb
  · apply Nat.testBit_lt_two_pow
    exact lt_of_lt_of_le ha (Nat.pow_le_pow_right (by norm_num) (by omega))

/-- The remainder has degree below that of the divisor. -/
theorem gf2Mod_lt (g deg : Nat) (hg : g < 2 ^ (deg + 1)) (htop : g.testBit deg = true) :
    ∀ (k a : Nat), a < 2 ^ (deg + k) → gf2Mod g deg k a < 2 ^ deg := by
  intro k
  induction k with
  | zero => intro a ha; simpa [gf2Mod] using ha
  | succ k ih =>
    intro a ha
    rw [gf2Mod]
    apply ih
    by_cases hb : a.testBit (deg + k) = true
    · simp only [hb, if_true]
      have hgk : g <<< k < 2 ^ (deg + k + 1) := by
        rw [Nat.shiftLeft_eq, show deg + k + 1 = (deg + 1) + k by omega, Nat.pow_add]
        exact Nat.mul_lt_mul_of_pos_right hg (Nat.two_pow_pos k)
      apply lt_of_top_clear (a ^^^ g <<< k) (deg + k) (Nat.xor_lt_two_pow ha hgk)
      rw [Nat.testBit_xor, hb, Nat.testBit_shiftLeft]
      simp [htop]
    · have hb0 : a.testBit (deg + k) = false := by simpa using hb
      simp only [hb0, Bool.false_eq_true, if_false]
      exact lt_of_top_clear _ _ ha hb0

/-- C18: for every 16-bit value `d`, `_crc8(d)` is the remainder of
`(d XOR 0xFF00) * x^8` modulo x^8 + x^5 + x^4 + 1 over GF(2) (initial value 0xFF, no
bit reflection, no final XOR): it equals the result of the long division `crc8Spec`,
it has degree below 8, and the dividend is quotient times generator plus `_crc8(d)`.
The Sensirion check value is `_crc8(0xBEEF) = 0x92`. -/
theorem crc8_is_polynomial_remainder (d : Nat) (hd : d < 65536) :
    _crc8 d = crc8Spec d ∧
    _crc8 d < 2 ^ 8 ∧
    (d ^^^ 0xFF00) <<< 8 =
      gf2Mul (gf2Quot 0x131 8 16 ((d ^^^ 0xFF00) <<< 8)) 0x131 16 ^^^ _crc8 d ∧
    _crc8 0xBEEF = 0x92 := by
  have hhi : d >>> 8 < 256 := by
    rw [Nat.shiftRight_eq_div_pow]
    omega
  have hlo : d % 256 < 256 := Nat.mod_lt _ (by decide)
  have hmod : (d >>> 8) % 256 = d >>> 8 := Nat.mod_eq_of_lt hhi
  have hspec : crc8Spec d = _crc8.bits 8 (_crc8.bits 8 (d >>> 8)) ^^^ _crc8.bits 8 (d % 256)
      ^^^ _crc8.bits 8 (_crc8.bits 8 0xFF) := by
    unfold crc8Spec
    conv_lhs => rw [← split16 d]
    rw [shl_xor, shl_xor, gf2Mod_xor, gf2Mod_xor, gf2Mod_high_byte _ hhi,
      gf2Mod_low_byte _ hlo, gf2Mod_init]
  have heq : _crc8 d = crc8Spec d := by
    rw [hspec, crc8_eq, hmod, crc8_bits_xor, crc8_bits_xor, crc8_bits_xor]
    simp [Nat.xor_assoc, Nat.xor_comm, xor_left_comm]
  refine ⟨heq, crc8_lt d, ?_, by decide⟩
  rw [heq]
  exact gf2_division 0x131 8 16 ((d ^^^ 0xFF00) <<< 8)

/-- Witness for C18: at the check input 0xBEEF the division gives 0x92. -/
theorem crc8_is_polynomial_remainder_witness :
    crc8Spec 0xBEEF = 0x92 ∧ _crc8 0xBEEF = crc8Spec 0xBEEF :=
  ⟨by decide, (crc8_is_polynomial_remainder 0xBEEF (by decide)).1⟩

/-! ## Error detection -/

theorem popcount8_eq : ∀ m < 256, popcount8 m = pc8 m := by
  decide!

theorem lowWeight_complete : ∀ m < 256, pc8 m ≤ 3 → m ∈ lowWeight (pc8 m) := by
  decide!

/-- The syndrome of an error pattern `(m0, m1)` on the two data bytes is the change
it causes in the CRC. Over all patterns of weight `w0` and `w1` with `w0 + w1 ≤ 3`:
adding the weight of the syndrome gives 0 (no error at all) or more than 3. -/
theorem syndrome_weight_low : ∀ w0 < 4, ∀ w1 < 4, w0 + w1 ≤ 3 →
    ∀ m0 ∈ lowWeight w0, ∀ m1 ∈ lowWeight w1,
      3 < w0 + w1 + pc8 (_crc8.bits 8 (_crc8.bits 8 m0 ^^^ m1)) ∨
      w0 + w1 + pc8 (_crc8.bits 8 (_crc8.bits 8 m0 ^^^ m1)) = 0 := by
  decide!

/-- No error pattern of total weight 1 to 3, CRC byte included, has the syndrome
that would hide it. -/
theorem syndrome_weight (m0 : Nat) (h0 : m0 < 256) (m1 : Nat) (h1 : m1 < 256)
    (hmax : pc8 m0 + pc8 m1 + pc8 (_crc8.bits 8 (_crc8.bits 8 m0 ^^^ m1)) ≤ 3) :
    pc8 m0 + pc8 m1 + pc8 (_crc8.bits 8 (_crc8.bits 8 m0 ^^^ m1)) = 0 := by
  have hw0 : pc8 m0 ≤ 3 := by omega
  have hw1 : pc8 m1 ≤ 3 := by omega
  rcases syndrome_weight_low (pc8 m0) (by omega) (pc8 m1) (by omega) (by omega) m0
    (lowWeight_complete m0 h0 hw0) m1 (lowWeight_complete m1 h1 hw1) with h | h
  · omega
  · exact h

/-- C19: for every 16-bit value `d` and every frame `[c0, c1, c2]` of three bytes
that differs from the valid frame `[d >> 8, d & 0xFF, _crc8(d)]` in at least one and
at most three bit positions, the test `_crc8(c0 * 256 + c1) != c2` used by the
validated reads reports a mismatch. -/
theorem crc8_detects_up_to_three_bit_errors (d c0 c1 c2 : Nat) (hd : d < 65536)
    (h0 : c0 < 256) (h1 : c1 < 256)
    (hmin : 1 ≤ bitDistance c0 (d >>> 8) + bitDistance c1 (d &&& 0xFF)
      + bitDistance c2 (_crc8 d))
    (hmax : bitDistance c0 (d >>> 8) + bitDistance c1 (d &&& 0xFF)
      + bitDistance c2 (_crc8 d) ≤ 3) :
    _crc8 (c0 * 256 + c1) ≠ c2 := by
  intro hpass
  have hand : d &&& 0xFF = d % 256 := Nat.and_pow_two_sub_one_eq_mod d 8
  have hhi : d >>> 8 < 256 := by
    rw [Nat.shiftRight_eq_div_pow]
    omega
  have hlo : d % 256 < 256 := Nat.mod_lt _ (by decide)
  have hmod : (d >>> 8) % 256 = d >>> 8 := Nat.mod_eq_of_lt hhi
  rw [hand] at hmin hmax
  have hm0 : c0 ^^^ (d >>> 8) < 256 := xor_lt_256 _ _ h0 hhi
  have hm1 : c1 ^^^ (d % 256) < 256 := xor_lt_256 _ _ h1 hlo
  have hc0 : c0 = (d >>> 8) ^^^ (c0 ^^^ (d >>> 8)) := by
    rw [Nat.xor_comm c0, Nat.xor_cancel_left]
  have hc1 : c1 = (d % 256) ^^^ (c1 ^^^ (d % 256)) := by
    rw [Nat.xor_comm c1, Nat.xor_cancel_left]
  have hsyn : c2 ^^^ _crc8 d
      = _crc8.bits 8 (_crc8.bits 8 (c0 ^^^ (d >>> 8)) ^^^ (c1 ^^^ (d % 256))) := by
    rw [← hpass, crc8_bytes c0 c1 h0 h1, crc8_eq d, hmod]
    conv_lhs => rw [hc0, hc1]
    simp only [crc8_bits_xor]
    simp [Nat.xor_assoc, Nat.xor_comm, xor_left_comm, Nat.xor_cancel_left]
  have hs : _crc8.bits 8 (_crc8.bits 8 (c0 ^^^ (d >>> 8)) ^^^ (c1 ^^^ (d % 256))) < 256 :=
    crc8_bits_lt 8 _ (xor_lt_256 _ _ (crc8_bits_lt 8 _ hm0) hm1)
  unfold bitDistance at hmin hmax
  rw [hsyn, popcount8_eq _ hm0, popcount8_eq _ hm1, popcount8_eq _ hs] at hmin hmax
  have hz := syndrome_weight _ hm0 _ hm1 hmax
  omega

/-- Witness for C19: the valid frame BE EF 92 with one bit flipped in byte 0 and one
in the CRC byte. -/
theorem crc8_detects_up_to_three_bit_errors_witness :
    _crc8 (0xBF * 256 + 0xEF) ≠ 0x90 :=
  crc8_detects_up_to_three_bit_errors 0xBEEF 0xBF 0xEF 0x90 (by decide) (by decide)
    (by decide) (by decide) (by decide)

end CHT832X
